import Mathlib

/-!
# Default table privileges of a group on a schema (`redshift_schema_group_privilege`)

A shallow embedding of `redshift/resource_redshift_schema_group_privilege.go`.

* The resource state (`schema.ResourceData`) is a record of the seven declared
  attributes plus the identity string.
* The database is a record of the three catalog tables the queries of the file
  read (`pg_group`, `pg_default_acl`, `pg_namespace`), with the columns the
  queries name.  A transaction works on a private copy of the catalog which
  `Commit` publishes and `Rollback` discards.
* Every call that reaches the database is appended to a trace of events.
* The SQL text of the two catalog queries is embedded function by function
  (`split_part`, `charindex`, `decode`, `array_to_string`, `LIKE`, `||`).
* `log.Fatal` prints and then ends the process with `os.Exit(1)`; `panic`
  unwinds the goroutine.  Both are outcomes of an operation, next to returning.
* Two expressions of the file are not typed by Go.
  `error("Must have at least 1 privilige")` is read as the error with that
  message.  `d.Get("schema_id").(int) + "_" + d.Get("group_id").(int)` is given
  no value: what it hands to `SetId` is a parameter of the environment.
-/

namespace Redshift

/-! ## Errors, resource state, catalog -/

/-- Go `error` values met by the resource: `sql.ErrNoRows`, or any other error,
identified by its message. -/
inductive Err where
  | ErrNoRows
  | msg (text : String)
  deriving DecidableEq, Repr

/-- The `schema.ResourceData` of the resource: the identity (`d.Id()`, empty
when unset) and the seven attributes of the declared `Schema`. -/
structure ResourceData where
  id : String
  schema_id : Int
  group_id : Int
  select : Bool
  insert : Bool
  update : Bool
  delete : Bool
  references : Bool
  deriving DecidableEq, Repr

/-- A row of `pg_group`, with the two columns the queries name. -/
structure PgGroup where
  groname : String
  groupid : Int
  deriving DecidableEq, Repr

/-- A row of `pg_default_acl`, with the three columns the queries name. -/
structure PgDefaultAcl where
  oid : Int
  defaclnamespace : Int
  defaclacl : List String
  deriving DecidableEq, Repr

/-- A row of `pg_namespace`, with the column the queries name. -/
structure PgNamespace where
  oid : Int
  deriving DecidableEq, Repr

/-- The catalog tables read by the queries of the file. -/
structure Catalog where
  pg_group : List PgGroup
  pg_default_acl : List PgDefaultAcl
  pg_namespace : List PgNamespace
  deriving DecidableEq, Repr

/-! ## SQL functions used by the two catalog queries -/

/-- Splitting on a non-empty delimiter, left to right, without overlap.  The
counter is the number of characters of a matched delimiter still to skip. -/
def splitOnAux (delim : List Char) : List Char → Nat → List (List Char)
  | [], _ => [[]]
  | _ :: cs, skip + 1 => splitOnAux delim cs skip
  | c :: cs, 0 =>
    if delim.isPrefixOf (c :: cs) then
      [] :: splitOnAux delim cs (delim.length - 1)
    else
      match splitOnAux delim cs 0 with
      | [] => [[c]]
      | p :: ps => (c :: p) :: ps

/-- SQL `split_part(string, delimiter, position)`: the `position`-th field
(counted from 1) of `string` split on `delimiter`, empty when there are fewer
fields. -/
def split_part (s delim : String) (position : Nat) : String :=
  if delim.data = [] then
    (if position = 1 then s else "")
  else
    String.mk (((splitOnAux delim.data s.data 0).get? (position - 1)).getD [])

/-- Position scan of `charindex`: `i` is the 1-based position of the head. -/
def charindexAux (sub : List Char) : List Char → Nat → Nat
  | [], _ => 0
  | c :: cs, i => if sub.isPrefixOf (c :: cs) then i else charindexAux sub cs (i + 1)

/-- SQL `charindex(substring, string)`: the 1-based position of the first
occurrence of `substring` in `string`, 0 when there is none. -/
def charindex (sub s : String) : Nat :=
  charindexAux sub.data s.data 1

/-- SQL `decode(expr, search, result, default)`. -/
def decode (expr search result default : Nat) : Nat :=
  if expr = search then result else default

/-- SQL `array_to_string(array, delimiter)`. -/
def array_to_string (arr : List String) (delim : String) : String :=
  delim.intercalate arr

/-- SQL `LIKE` on character lists: `%` matches any run of characters, `_` any
one character, a backslash makes the next pattern character literal. -/
def likeMatch : List Char → List Char → Bool
  | [], s => s.isEmpty
  | c :: p, s =>
    if c = '%' then s.tails.any (likeMatch p)
    else if c = '_' then
      match s with
      | [] => false
      | _ :: s1 => likeMatch p s1
    else if c = '\\' then
      match p, s with
      | e :: p1, x :: s1 => x == e && likeMatch p1 s1
      | _, _ => false
    else
      match s with
      | [] => false
      | x :: s1 => x == c && likeMatch p s1

/-- SQL `string LIKE pattern`. -/
def like (s pattern : String) : Bool :=
  likeMatch pattern.data s.data

/-- Scanning a `decode(.., 0, 0, 1)` column into a Go `bool`. -/
def scanBool (n : Nat) : Bool :=
  n != 0

/-! ## The database seen from the resource -/

/-- The two catalog queries of the file, with their bound arguments. -/
inductive Query where
  | aclExists (id : String)
  | has_schema_privilege (schema_id group_id : Int)
  deriving DecidableEq, Repr

/-- A call that reaches the database. -/
inductive Event where
  | begin
  | commit
  | rollback
  | schemaLookup (schema_id : Int)
  | groupLookup (group_id : Int)
  | exec (statement : String)
  | queryRow (q : Query)
  deriving DecidableEq, Repr

/-- The database and the record of the calls made to it: the committed
catalog and the trace of events, oldest first. -/
structure World where
  catalog : Catalog
  trace : List Event
  deriving DecidableEq, Repr

/-- A `*sql.Tx`: the catalog as the transaction sees it, and whether the
transaction has already been committed or rolled back. -/
structure Tx where
  working : Catalog
  finished : Bool
  deriving DecidableEq, Repr

/-- What the file takes from outside: whether `Begin` fails, the two name
lookups (functions of the package that live in another file), the effect of a
statement on the catalog, whether a catalog query fails in the driver, and the
string that line 168 hands to `SetId`.  That line adds an `int`, the string
constant `"_"` and an `int`, which Go does not type: the file fixes no value
for the expression, so the value is left open here. -/
structure Env where
  beginErr : Option Err
  setIdArgument : Int → Int → String
  GetSchemanNameForSchemaId : Catalog → Int → Except Err String
  GetGroupNameForGroupId : Catalog → Int → Except Err String
  Exec : Catalog → String → Except Err Catalog
  queryErr : Query → Option Err

/-- How an operation ends: it returns to the host, it panics, or `log.Fatal`
ends the process (`os.Exit(1)`, nothing after it runs). -/
inductive Outcome (α : Type) where
  | returned (val : α)
  | panicked (err : Err)
  | fatal (err : Err)
  deriving DecidableEq, Repr

/-- An operation run to its end: how it ended, the resource state and the
world it leaves. -/
structure Run (α : Type) where
  outcome : Outcome α
  data : ResourceData
  world : World
  deriving DecidableEq, Repr

/-- Appending an event to the trace. -/
def World.log (w : World) (e : Event) : World :=
  { w with trace := w.trace ++ [e] }

/-- The call `db.Begin()`: a transaction on a copy of the committed catalog, or
the error. -/
def Begin (env : Env) (w : World) : Except Err Tx × World :=
  match env.beginErr with
  | some txErr => (.error txErr, w)
  | none => (.ok { working := w.catalog, finished := false }, w.log .begin)

/-- The call `tx.Rollback()`: the working copy is dropped.  On a transaction
that is already finished the call returns `sql.ErrTxDone` (which the file
discards) and nothing reaches the database. -/
def Tx.Rollback (tx : Tx) (w : World) : Tx × World :=
  if tx.finished then (tx, w)
  else ({ tx with finished := true }, w.log .rollback)

/-- The call `tx.Commit()`: the working copy becomes the committed catalog.  On
a transaction that is already finished the call returns `sql.ErrTxDone` (which
the file discards) and nothing reaches the database. -/
def Tx.Commit (tx : Tx) (w : World) : Tx × World :=
  if tx.finished then (tx, w)
  else ({ tx with finished := true }, { catalog := tx.working, trace := w.trace ++ [.commit] })

/-- The call `tx.Exec(statement)`. -/
def Tx.Exec (env : Env) (tx : Tx) (w : World) (statement : String) : Option Err × Tx × World :=
  match env.Exec tx.working statement with
  | .error err => (some err, tx, w.log (.exec statement))
  | .ok cat => (none, { tx with working := cat }, w.log (.exec statement))

/-- The call `QueryRow(..).Scan(..)`: the first row of the result, `sql.ErrNoRows`
when the result is empty, or the error of the driver. -/
def QueryRowScan {α : Type} (fault : Option Err) (rows : List α) : Except Err α :=
  match fault with
  | some err => .error err
  | none =>
    match rows with
    | [] => .error .ErrNoRows
    | r :: _ => .ok r

/-! ## The catalog queries -/

/-- The key the query of `Exists` compares with the identity:
`nsp.oid || '_' || groupid`. -/
def aclKey (oid groupid : Int) : String :=
  toString oid ++ "_" ++ toString groupid

/-- The query of `resourceRedshiftSchemaGroupPrivilegeExists`: the `aclid`
column of the rows of `pg_group pu, pg_default_acl acl, pg_namespace nsp` that
pass the `where` clause, for the identity `id`. -/
def aclExistsQuery (cat : Catalog) (id : String) : List Int :=
  cat.pg_group.flatMap fun pu =>
    cat.pg_default_acl.flatMap fun acl =>
      cat.pg_namespace.flatMap fun nsp =>
        if acl.defaclnamespace = nsp.oid
            ∧ like (array_to_string acl.defaclacl "|") ("%" ++ pu.groname ++ "=%") = true
            ∧ aclKey nsp.oid pu.groupid = id then
          [acl.oid]
        else []

/-- One column of the select list of `has_schema_privilege_query`:
`decode(charindex(letter, split_part(split_part(array_to_string(defaclacl, '|'),
pu.groname, 2), '/', 1)), 0, 0, 1)`. -/
def privilegeColumn (letter : String) (defaclacl : List String) (groname : String) : Nat :=
  decode (charindex letter
    (split_part (split_part (array_to_string defaclacl "|") groname 2) "/" 1)) 0 0 1

/-- A row of `has_schema_privilege_query`, columns in the order of the select
list: `select`, `update`, `insert`, `delete`, `references`. -/
structure PrivilegeRow where
  select : Nat
  update : Nat
  insert : Nat
  delete : Nat
  references : Nat
  deriving DecidableEq, Repr

/-- The select list of `has_schema_privilege_query` on one joined row. -/
def privilegeRow (defaclacl : List String) (groname : String) : PrivilegeRow :=
  { select := privilegeColumn "r" defaclacl groname
    update := privilegeColumn "w" defaclacl groname
    insert := privilegeColumn "a" defaclacl groname
    delete := privilegeColumn "d" defaclacl groname
    references := privilegeColumn "x" defaclacl groname }

/-- The rows of `pg_group pu, pg_default_acl acl, pg_namespace nsp` that pass
the `where` clause of `has_schema_privilege_query`, each as the pair of the
group name and the array of ACL items. -/
def privilegeJoin (cat : Catalog) (schema_id group_id : Int) : List (String × List String) :=
  cat.pg_group.flatMap fun pu =>
    cat.pg_default_acl.flatMap fun acl =>
      cat.pg_namespace.flatMap fun nsp =>
        if acl.defaclnamespace = nsp.oid
            ∧ like (array_to_string acl.defaclacl "|") ("%" ++ pu.groname ++ "=%") = true
            ∧ nsp.oid = schema_id
            ∧ pu.groupid = group_id then
          [(pu.groname, acl.defaclacl)]
        else []

/-- The query `has_schema_privilege_query` with `$1 = schema_id`,
`$2 = group_id`. -/
def has_schema_privilege_query (cat : Catalog) (schema_id group_id : Int) : List PrivilegeRow :=
  (privilegeJoin cat schema_id group_id).map fun r => privilegeRow r.2 r.1

/-! ## The operations of the resource -/

/-- The call `d.GetOk(key)` on a boolean attribute: the value, and whether it is
set to something other than the zero value. -/
def GetOk (v : Bool) : Bool × Bool :=
  (v, v)

/-- The error returned when no privilege is asked for. -/
def noPrivilegeErr : Err :=
  .msg "Must have at least 1 privilige"

/-- The slice `grants` built by `resourceRedshiftSchemaGroupPrivilegeCreate`. -/
def grantKeywords (d : ResourceData) : List String :=
  let grants : List String := []
  let grants := if (GetOk d.select).2 && (GetOk d.select).1 then grants ++ ["SELECT"] else grants
  let grants := if (GetOk d.insert).2 && (GetOk d.insert).1 then grants ++ ["INSERT"] else grants
  let grants := if (GetOk d.update).2 && (GetOk d.update).1 then grants ++ ["UPDATE"] else grants
  let grants := if (GetOk d.delete).2 && (GetOk d.delete).1 then grants ++ ["DELETE"] else grants
  let grants := if (GetOk d.references).2 && (GetOk d.references).1 then grants ++ ["REFERENCES"] else grants
  grants

/-- The string `grant_privilege_statement`. -/
def grant_privilege_statement (grants : List String) (schema_name group_name : String) : String :=
  "GRANT " ++ ",".intercalate grants ++ " ON ALL TABLES IN SCHEMA " ++ schema_name
    ++ " TO GROUP " ++ group_name

/-- The string `default_privileges_statement`. -/
def default_privileges_statement (grants : List String) (schema_name group_name : String) :
    String :=
  "ALTER DEFAULT PRIVILEGES IN SCHEMA " ++ schema_name ++ " GRANT " ++ ",".intercalate grants
    ++ " ON TABLES TO GROUP " ++ group_name

/-- The argument of `d.SetId` in Create, for the `schema_id` and `group_id` of
the state: the value of the expression of line 168, which the file leaves
open. -/
def createId (env : Env) (d : ResourceData) : String :=
  env.setIdArgument d.schema_id d.group_id

/-- The function `resourceRedshiftSchemaGroupPrivilegeExists`: one `QueryRow`
on the client itself, outside any transaction, then the `switch` on the error
of `Scan`. -/
def resourceRedshiftSchemaGroupPrivilegeExists (env : Env) (d : ResourceData) (w : World) :
    Run (Bool × Option Err) :=
  let w := w.log (.queryRow (.aclExists d.id))
  match QueryRowScan (env.queryErr (.aclExists d.id)) (aclExistsQuery w.catalog d.id) with
  | .error err =>
    if err = .ErrNoRows then ⟨.returned (false, none), d, w⟩
    else ⟨.returned (false, some err), d, w⟩
  | .ok _ => ⟨.returned (true, none), d, w⟩

/-- The function `readRedshiftSchemaGroupPrivilege`: the query is bound to the
`schema_id` and `group_id` attributes; on an error of `Scan` it rolls the
transaction back itself and returns the error, otherwise it sets the five
attributes. -/
def readRedshiftSchemaGroupPrivilege (env : Env) (d : ResourceData) (tx : Tx) (w : World) :
    Option Err × ResourceData × Tx × World :=
  let w := w.log (.queryRow (.has_schema_privilege d.schema_id d.group_id))
  match QueryRowScan (env.queryErr (.has_schema_privilege d.schema_id d.group_id))
      (has_schema_privilege_query tx.working d.schema_id d.group_id) with
  | .error schemaPrivilegesError =>
    let (tx, w) := tx.Rollback w
    (some schemaPrivilegesError, d, tx, w)
  | .ok row =>
    let selectPrivilege := scanBool row.select
    let updatePrivilege := scanBool row.update
    let insertPrivilege := scanBool row.insert
    let deletePrivilege := scanBool row.delete
    let referencesPrivilege := scanBool row.references
    let d := { d with select := selectPrivilege }
    let d := { d with insert := insertPrivilege }
    let d := { d with update := updatePrivilege }
    let d := { d with delete := deletePrivilege }
    let d := { d with references := referencesPrivilege }
    (none, d, tx, w)

/-- The function `resourceRedshiftSchemaGroupPrivilegeCreate`.  In each of the
four `if .. != nil` blocks the first statement is `log.Fatal(..)`, which ends
the process: the `tx.Rollback()` and the `return` written after it are never
reached. -/
def resourceRedshiftSchemaGroupPrivilegeCreate (env : Env) (d : ResourceData) (w : World) :
    Run (Option Err) :=
  match Begin env w with
  -- `if txErr != nil { panic(txErr) }`
  | (.error txErr, w) => ⟨.panicked txErr, d, w⟩
  | (.ok tx, w) =>
    let grants := grantKeywords d
    if grants.length = 0 then
      let (_, w) := tx.Rollback w
      ⟨.returned (some noPrivilegeErr), d, w⟩
    else
      let w := w.log (.schemaLookup d.schema_id)
      match env.GetSchemanNameForSchemaId tx.working d.schema_id with
      -- `log.Fatal(schemaErr)`
      | .error schemaErr => ⟨.fatal schemaErr, d, w⟩
      | .ok schema_name =>
        let w := w.log (.groupLookup d.group_id)
        match env.GetGroupNameForGroupId tx.working d.group_id with
        -- `log.Fatal(groupErr)`
        | .error groupErr => ⟨.fatal groupErr, d, w⟩
        | .ok group_name =>
          match tx.Exec env w (grant_privilege_statement grants schema_name group_name) with
          -- `log.Fatal(err)`
          | (some err, _, w) => ⟨.fatal err, d, w⟩
          | (none, tx, w) =>
            match tx.Exec env w (default_privileges_statement grants schema_name group_name) with
            -- `log.Fatal(err)`
            | (some err, _, w) => ⟨.fatal err, d, w⟩
            | (none, tx, w) =>
              let d := { d with id := createId env d }
              match readRedshiftSchemaGroupPrivilege env d tx w with
              | (none, d, tx, w) =>
                let (_, w) := tx.Commit w
                ⟨.returned none, d, w⟩
              | (some readErr, d, tx, w) =>
                let (_, w) := tx.Rollback w
                ⟨.returned (some readErr), d, w⟩

/-- The function `resourceRedshiftSchemaGroupPrivilegeRead`. -/
def resourceRedshiftSchemaGroupPrivilegeRead (env : Env) (d : ResourceData) (w : World) :
    Run (Option Err) :=
  match Begin env w with
  | (.error txErr, w) => ⟨.panicked txErr, d, w⟩
  | (.ok tx, w) =>
    match readRedshiftSchemaGroupPrivilege env d tx w with
    | (none, d, tx, w) =>
      let (_, w) := tx.Commit w
      ⟨.returned none, d, w⟩
    | (some err, d, tx, w) =>
      let (_, w) := tx.Rollback w
      ⟨.returned (some err), d, w⟩

/-- The function `resourceRedshiftSchemaGroupPrivilegeImport`: the slice it
returns is a list, `nil` the empty list. -/
def resourceRedshiftSchemaGroupPrivilegeImport (env : Env) (d : ResourceData) (w : World) :
    Run (List ResourceData × Option Err) :=
  match resourceRedshiftSchemaGroupPrivilegeRead env d w with
  | ⟨.returned (some err), d, w⟩ => ⟨.returned ([], some err), d, w⟩
  | ⟨.returned none, d, w⟩ => ⟨.returned ([d], none), d, w⟩
  | ⟨.panicked err, d, w⟩ => ⟨.panicked err, d, w⟩
  | ⟨.fatal err, d, w⟩ => ⟨.fatal err, d, w⟩

/-! ## The words of the specification -/

/-- The five flags of a resource state, in the order select, insert, update,
delete, references. -/
def flags (d : ResourceData) : List Bool :=
  [d.select, d.insert, d.update, d.delete, d.references]

/-- The privilege list as the specification words it: the subsequence of
SELECT, INSERT, UPDATE, DELETE, REFERENCES whose flag is true, joined by commas
without spaces. -/
def specPrivilegeList (d : ResourceData) : String :=
  ",".intercalate
    (([("SELECT", d.select), ("INSERT", d.insert), ("UPDATE", d.update),
        ("DELETE", d.delete), ("REFERENCES", d.references)].filter fun kw => kw.2).map
      fun kw => kw.1)

/-- The statements executed by `tx.Exec` in a trace, oldest first. -/
def execStatements : List Event → List String
  | [] => []
  | .exec statement :: rest => statement :: execStatements rest
  | _ :: rest => execStatements rest

/-- Whether an event is SQL sent to the database: a name lookup, a statement
or a catalog query (as opposed to opening and ending the transaction). -/
def Event.isSql : Event → Bool
  | .schemaLookup _ => true
  | .groupLookup _ => true
  | .exec _ => true
  | .queryRow _ => true
  | _ => false

/-- Modelled from the spec: the database itself, which is no code of the
repository.  The letters a default-ACL item records for the privileges asked
for (r for SELECT, a for INSERT, w for UPDATE, d for DELETE, x for REFERENCES),
in the order in which the catalog prints them. -/
def aclLetters (d : ResourceData) : String :=
  (if d.insert then "a" else "") ++ (if d.select then "r" else "")
    ++ (if d.update then "w" else "") ++ (if d.delete then "d" else "")
    ++ (if d.references then "x" else "")

/-- Modelled from the spec: the grantee entry of a group in a default ACL,
`<group name>=<letters>/<grantor>`. -/
def aclItem (groname letters grantor : String) : String :=
  groname ++ "=" ++ letters ++ "/" ++ grantor

/-- Modelled from the spec: adding an item to the default ACL of a schema, at
the end of the array of its first `pg_default_acl` row, in a new row when the
schema has none. -/
def appendAclItem : List PgDefaultAcl → Int → Int → String → List PgDefaultAcl
  | [], nsp, newOid, item => [{ oid := newOid, defaclnamespace := nsp, defaclacl := [item] }]
  | a :: rest, nsp, newOid, item =>
    if a.defaclnamespace = nsp then { a with defaclacl := a.defaclacl ++ [item] } :: rest
    else a :: appendAclItem rest nsp newOid item

/-- Modelled from the spec: the effect on the catalog of
`ALTER DEFAULT PRIVILEGES IN SCHEMA .. GRANT .. ON TABLES TO GROUP ..`, which
records the letters of the granted privileges in the grantee entry of the
group. -/
def recordDefaultGrant (cat : Catalog) (nsp newOid : Int) (groname letters grantor : String) :
    Catalog :=
  { cat with
    pg_default_acl := appendAclItem cat.pg_default_acl nsp newOid (aclItem groname letters grantor) }

/-- The number a list of decimal digits stands for. -/
def digitsValue (cs : List Char) : Nat :=
  cs.foldl (fun a c => 10 * a + (c.toNat - 48)) 0

/-- Whether `g` occurs in `s` at a position before `n`. -/
def occursBefore (g s : List Char) : Nat → Bool
  | 0 => false
  | n + 1 => occursBefore g s n || g.isPrefixOf (s.drop n)

/-- The events an operation added to the trace of the world it started in. -/
def newEvents {α : Type} (w : World) (r : Run α) : List Event :=
  r.world.trace.drop w.trace.length

/-- The resource state after a read that scanned `row`. -/
def withRow (d : ResourceData) (row : PrivilegeRow) : ResourceData :=
  { d with
    select := scanBool row.select
    insert := scanBool row.insert
    update := scanBool row.update
    delete := scanBool row.delete
    references := scanBool row.references }

/-! ## Concrete databases -/

/-- A resource state with no identity and no flag set. -/
def blank (schema_id group_id : Int) : ResourceData :=
  { id := "", schema_id := schema_id, group_id := group_id, select := false, insert := false,
    update := false, delete := false, references := false }

/-- The declared state of schema 5, group 7 with select and insert asked for. -/
def selectInsert57 : ResourceData :=
  { id := "", schema_id := 5, group_id := 7, select := true, insert := true,
    update := false, delete := false, references := false }

/-- A catalog with one schema (oid 5), the groups `analysts` (7), `dev` (8) and
`a` (9), and no default ACL. -/
def demoCatalog : Catalog :=
  { pg_group := [⟨"analysts", 7⟩, ⟨"dev", 8⟩, ⟨"a", 9⟩]
    pg_default_acl := []
    pg_namespace := [⟨5⟩] }

/-- The name of schema 5 in the concrete databases. -/
def demoSchemaName (_ : Catalog) (schema_id : Int) : Except Err String :=
  if schema_id = 5 then .ok "sales" else .error (.msg "schema not found")

/-- The names of the groups of `demoCatalog`. -/
def demoGroupName (cat : Catalog) (group_id : Int) : Except Err String :=
  match cat.pg_group.find? fun pu => pu.groupid = group_id with
  | some pu => .ok pu.groname
  | none => .error (.msg "group not found")

/-- A database that follows the catalog model for the statements of a Create
of `d` on schema `sales` (5) for the group named `group_name`: the GRANT leaves
the default ACLs alone, the ALTER DEFAULT PRIVILEGES records the letters. -/
def demoExec (d : ResourceData) (group_name : String) (cat : Catalog) (statement : String) :
    Except Err Catalog :=
  if statement = grant_privilege_statement (grantKeywords d) "sales" group_name then .ok cat
  else if statement = default_privileges_statement (grantKeywords d) "sales" group_name then
    .ok (recordDefaultGrant cat 5 100 group_name (aclLetters d) "admin")
  else .error (.msg "syntax error")

/-- A database on which every call succeeds.  The identity handed to `SetId` is
taken to be the one the comment above the resource describes. -/
def demoEnv (d : ResourceData) (group_name : String) : Env :=
  { beginErr := none
    setIdArgument := aclKey
    GetSchemanNameForSchemaId := demoSchemaName
    GetGroupNameForGroupId := demoGroupName
    Exec := demoExec d group_name
    queryErr := fun _ => none }

/-- A world with `demoCatalog` committed and an empty trace. -/
def demoWorld : World :=
  { catalog := demoCatalog, trace := [] }

/-- A state asking for select on schema 6, which no lookup resolves. -/
def selectOn6 : ResourceData :=
  { id := "", schema_id := 6, group_id := 7, select := true, insert := false,
    update := false, delete := false, references := false }

/-- A database that accepts the GRANT and refuses every other statement. -/
def alterFailsEnv : Env :=
  { beginErr := none
    setIdArgument := aclKey
    GetSchemanNameForSchemaId := demoSchemaName
    GetGroupNameForGroupId := demoGroupName
    Exec := fun cat statement =>
      if statement = "GRANT SELECT,INSERT ON ALL TABLES IN SCHEMA sales TO GROUP analysts" then
        .ok cat
      else .error (.msg "permission denied")
    queryErr := fun _ => none }

/-- A database on which every call succeeds but the catalog queries, which
fail in the driver. -/
def queryFailsEnv (d : ResourceData) (group_name : String) : Env :=
  { demoEnv d group_name with queryErr := fun _ => some (.msg "connection reset") }

/-- A database that cannot open a transaction. -/
def beginFailsEnv : Env :=
  { demoEnv (blank 5 7) "analysts" with beginErr := some (.msg "begin failed") }

/-- A catalog in which schema 5 has default ACL items for the groups
`analysts` (7) and `dev` (8). -/
def twoGroupsCatalog : Catalog :=
  { pg_group := [⟨"analysts", 7⟩, ⟨"dev", 8⟩]
    pg_default_acl := [⟨100, 5, ["analysts=r/admin", "dev=w/admin"]⟩]
    pg_namespace := [⟨5⟩] }

/-- A state whose identity names the pair (5, 7) while its attributes name
the pair (5, 8). -/
def identity57group8 : ResourceData :=
  { id := "5_7", schema_id := 5, group_id := 8, select := false, insert := false,
    update := false, delete := false, references := false }

/-- A catalog in which schema 5 has default ACL items for the groups `devops`
(6) and `dev` (8). -/
def devopsDevCatalog : Catalog :=
  { pg_group := [⟨"devops", 6⟩, ⟨"dev", 8⟩]
    pg_default_acl := [⟨100, 5, ["devops=arwdx/admin", "dev=r/admin"]⟩]
    pg_namespace := [⟨5⟩] }

/-- A catalog in which schema 5 has a default ACL item for the group `devops`
(6) and none for the group `dev` (8). -/
def devopsCatalog : Catalog :=
  { pg_group := [⟨"devops", 6⟩, ⟨"dev", 8⟩]
    pg_default_acl := [⟨100, 5, ["devops=arwdx/admin"]⟩]
    pg_namespace := [⟨5⟩] }

/-- A catalog in which schema 5 has a default ACL item for the group `dev` (8)
and none for the group `analysts` (7). -/
def devCatalog : Catalog :=
  { pg_group := [⟨"analysts", 7⟩, ⟨"dev", 8⟩]
    pg_default_acl := [⟨100, 5, ["dev=w/admin"]⟩]
    pg_namespace := [⟨5⟩] }

/-- The declared state of schema 5, group 8 with select asked for. -/
def selectOn58 : ResourceData :=
  { id := "", schema_id := 5, group_id := 8, select := true, insert := false,
    update := false, delete := false, references := false }

/-- The declared state of schema 5, group 9 with insert asked for. -/
def insertOn59 : ResourceData :=
  { id := "", schema_id := 5, group_id := 9, select := false, insert := true,
    update := false, delete := false, references := false }

/-- The rows of the privilege query for the pair an identity names, keyed as
the query of Exists keys them (`nsp.oid || '_' || groupid = id`): the reading
of the specification in which Read and Import take the identity. -/
def privilegeRowsOfIdentity (cat : Catalog) (id : String) : List PrivilegeRow :=
  cat.pg_group.flatMap fun pu =>
    cat.pg_default_acl.flatMap fun acl =>
      cat.pg_namespace.flatMap fun nsp =>
        if acl.defaclnamespace = nsp.oid
            ∧ like (array_to_string acl.defaclacl "|") ("%" ++ pu.groname ++ "=%") = true
            ∧ aclKey nsp.oid pu.groupid = id then
          [privilegeRow acl.defaclacl pu.groname]
        else []

/-- A trace in which exactly one transaction was opened, first of all, and
ended exactly once, by the commit or the rollback that comes last. -/
def transactionClosed (es : List Event) : Bool :=
  es.count .begin == 1 && es.head? == some .begin &&
    es.count .commit + es.count .rollback == 1 &&
    (es.getLast? == some .commit || es.getLast? == some .rollback)

/-! ## Paths of the operations -/

theorem grantKeywords_eq_nil_iff (d : ResourceData) :
    grantKeywords d = [] ↔
      d.select = false ∧ d.insert = false ∧ d.update = false ∧ d.delete = false
        ∧ d.references = false := by
  rcases d with ⟨id, sid, gid, a, b, c, e, f⟩
  cases a <;> cases b <;> cases c <;> cases e <;> cases f <;> simp [grantKeywords, GetOk]

theorem read_error (env : Env) (d : ResourceData) (tx : Tx) (w : World) (err : Err)
    (hf : tx.finished = false)
    (h : QueryRowScan (env.queryErr (.has_schema_privilege d.schema_id d.group_id))
      (has_schema_privilege_query tx.working d.schema_id d.group_id) = .error err) :
    readRedshiftSchemaGroupPrivilege env d tx w =
      (some err, d, { tx with finished := true },
        { w with trace := w.trace ++
          [.queryRow (.has_schema_privilege d.schema_id d.group_id), .rollback] }) := by
  simp [readRedshiftSchemaGroupPrivilege, h, Tx.Rollback, World.log, hf]

theorem read_ok (env : Env) (d : ResourceData) (tx : Tx) (w : World) (row : PrivilegeRow)
    (h : QueryRowScan (env.queryErr (.has_schema_privilege d.schema_id d.group_id))
      (has_schema_privilege_query tx.working d.schema_id d.group_id) = .ok row) :
    readRedshiftSchemaGroupPrivilege env d tx w =
      (none, withRow d row, tx,
        { w with trace := w.trace ++
          [.queryRow (.has_schema_privilege d.schema_id d.group_id)] }) := by
  simp [readRedshiftSchemaGroupPrivilege, h, World.log, withRow]

theorem create_begin_error (env : Env) (d : ResourceData) (w : World) (txErr : Err)
    (hb : env.beginErr = some txErr) :
    resourceRedshiftSchemaGroupPrivilegeCreate env d w = ⟨.panicked txErr, d, w⟩ := by
  simp [resourceRedshiftSchemaGroupPrivilegeCreate, Begin, hb]

theorem create_no_grants (env : Env) (d : ResourceData) (w : World)
    (hb : env.beginErr = none) (hg : grantKeywords d = []) :
    resourceRedshiftSchemaGroupPrivilegeCreate env d w =
      ⟨.returned (some noPrivilegeErr), d, { w with trace := w.trace ++ [.begin, .rollback] }⟩ := by
  simp [resourceRedshiftSchemaGroupPrivilegeCreate, Begin, hb, hg, Tx.Rollback, World.log]

theorem create_schema_error (env : Env) (d : ResourceData) (w : World) (schemaErr : Err)
    (hb : env.beginErr = none) (hg : grantKeywords d ≠ [])
    (hs : env.GetSchemanNameForSchemaId w.catalog d.schema_id = .error schemaErr) :
    resourceRedshiftSchemaGroupPrivilegeCreate env d w =
      ⟨.fatal schemaErr, d,
        { w with trace := w.trace ++ [.begin, .schemaLookup d.schema_id] }⟩ := by
  simp [resourceRedshiftSchemaGroupPrivilegeCreate, Begin, hb, hg, hs, World.log]

theorem create_group_error (env : Env) (d : ResourceData) (w : World) (schema_name : String)
    (groupErr : Err) (hb : env.beginErr = none) (hg : grantKeywords d ≠ [])
    (hs : env.GetSchemanNameForSchemaId w.catalog d.schema_id = .ok schema_name)
    (hn : env.GetGroupNameForGroupId w.catalog d.group_id = .error groupErr) :
    resourceRedshiftSchemaGroupPrivilegeCreate env d w =
      ⟨.fatal groupErr, d,
        { w with trace := w.trace ++
          [.begin, .schemaLookup d.schema_id, .groupLookup d.group_id] }⟩ := by
  simp [resourceRedshiftSchemaGroupPrivilegeCreate, Begin, hb, hg, hs, hn, World.log]

theorem create_grant_error (env : Env) (d : ResourceData) (w : World)
    (schema_name group_name : String) (err : Err)
    (hb : env.beginErr = none) (hg : grantKeywords d ≠ [])
    (hs : env.GetSchemanNameForSchemaId w.catalog d.schema_id = .ok schema_name)
    (hn : env.GetGroupNameForGroupId w.catalog d.group_id = .ok group_name)
    (h1 : env.Exec w.catalog (grant_privilege_statement (grantKeywords d) schema_name group_name)
      = .error err) :
    resourceRedshiftSchemaGroupPrivilegeCreate env d w =
      ⟨.fatal err, d,
        { w with trace := w.trace ++
          [.begin, .schemaLookup d.schema_id, .groupLookup d.group_id,
            .exec (grant_privilege_statement (grantKeywords d) schema_name group_name)] }⟩ := by
  simp [resourceRedshiftSchemaGroupPrivilegeCreate, Begin, hb, hg, hs, hn, h1, World.log, Tx.Exec]

theorem create_alter_error (env : Env) (d : ResourceData) (w : World)
    (schema_name group_name : String) (cat1 : Catalog) (err : Err)
    (hb : env.beginErr = none) (hg : grantKeywords d ≠ [])
    (hs : env.GetSchemanNameForSchemaId w.catalog d.schema_id = .ok schema_name)
    (hn : env.GetGroupNameForGroupId w.catalog d.group_id = .ok group_name)
    (h1 : env.Exec w.catalog (grant_privilege_statement (grantKeywords d) schema_name group_name)
      = .ok cat1)
    (h2 : env.Exec cat1 (default_privileges_statement (grantKeywords d) schema_name group_name)
      = .error err) :
    resourceRedshiftSchemaGroupPrivilegeCreate env d w =
      ⟨.fatal err, d,
        { w with trace := w.trace ++
          [.begin, .schemaLookup d.schema_id, .groupLookup d.group_id,
            .exec (grant_privilege_statement (grantKeywords d) schema_name group_name),
            .exec (default_privileges_statement (grantKeywords d) schema_name group_name)] }⟩ := by
  simp [resourceRedshiftSchemaGroupPrivilegeCreate, Begin, hb, hg, hs, hn, h1, h2, World.log,
    Tx.Exec]

theorem create_read_error (env : Env) (d : ResourceData) (w : World)
    (schema_name group_name : String) (cat1 cat2 : Catalog) (readErr : Err)
    (hb : env.beginErr = none) (hg : grantKeywords d ≠ [])
    (hs : env.GetSchemanNameForSchemaId w.catalog d.schema_id = .ok schema_name)
    (hn : env.GetGroupNameForGroupId w.catalog d.group_id = .ok group_name)
    (h1 : env.Exec w.catalog (grant_privilege_statement (grantKeywords d) schema_name group_name)
      = .ok cat1)
    (h2 : env.Exec cat1 (default_privileges_statement (grantKeywords d) schema_name group_name)
      = .ok cat2)
    (h3 : QueryRowScan (env.queryErr (.has_schema_privilege d.schema_id d.group_id))
      (has_schema_privilege_query cat2 d.schema_id d.group_id) = .error readErr) :
    resourceRedshiftSchemaGroupPrivilegeCreate env d w =
      ⟨.returned (some readErr), { d with id := createId env d },
        { w with trace := w.trace ++
          [.begin, .schemaLookup d.schema_id, .groupLookup d.group_id,
            .exec (grant_privilege_statement (grantKeywords d) schema_name group_name),
            .exec (default_privileges_statement (grantKeywords d) schema_name group_name),
            .queryRow (.has_schema_privilege d.schema_id d.group_id), .rollback] }⟩ := by
  simp [resourceRedshiftSchemaGroupPrivilegeCreate, Begin, hb, hg, hs, hn, h1, h2, World.log,
    Tx.Exec, readRedshiftSchemaGroupPrivilege, h3, Tx.Rollback]

theorem create_ok (env : Env) (d : ResourceData) (w : World)
    (schema_name group_name : String) (cat1 cat2 : Catalog) (row : PrivilegeRow)
    (hb : env.beginErr = none) (hg : grantKeywords d ≠ [])
    (hs : env.GetSchemanNameForSchemaId w.catalog d.schema_id = .ok schema_name)
    (hn : env.GetGroupNameForGroupId w.catalog d.group_id = .ok group_name)
    (h1 : env.Exec w.catalog (grant_privilege_statement (grantKeywords d) schema_name group_name)
      = .ok cat1)
    (h2 : env.Exec cat1 (default_privileges_statement (grantKeywords d) schema_name group_name)
      = .ok cat2)
    (h3 : QueryRowScan (env.queryErr (.has_schema_privilege d.schema_id d.group_id))
      (has_schema_privilege_query cat2 d.schema_id d.group_id) = .ok row) :
    resourceRedshiftSchemaGroupPrivilegeCreate env d w =
      ⟨.returned none, withRow { d with id := createId env d } row,
        { catalog := cat2
          trace := w.trace ++
          [.begin, .schemaLookup d.schema_id, .groupLookup d.group_id,
            .exec (grant_privilege_statement (grantKeywords d) schema_name group_name),
            .exec (default_privileges_statement (grantKeywords d) schema_name group_name),
            .queryRow (.has_schema_privilege d.schema_id d.group_id), .commit] }⟩ := by
  simp [resourceRedshiftSchemaGroupPrivilegeCreate, Begin, hb, hg, hs, hn, h1, h2, World.log,
    Tx.Exec, readRedshiftSchemaGroupPrivilege, h3, Tx.Commit, withRow]

theorem create_returned_none (env : Env) (d : ResourceData) (w : World)
    (h : (resourceRedshiftSchemaGroupPrivilegeCreate env d w).outcome = .returned none) :
    env.beginErr = none ∧ grantKeywords d ≠ [] ∧
      ∃ schema_name group_name cat1 cat2 row,
        env.GetSchemanNameForSchemaId w.catalog d.schema_id = .ok schema_name ∧
        env.GetGroupNameForGroupId w.catalog d.group_id = .ok group_name ∧
        env.Exec w.catalog (grant_privilege_statement (grantKeywords d) schema_name group_name)
          = .ok cat1 ∧
        env.Exec cat1 (default_privileges_statement (grantKeywords d) schema_name group_name)
          = .ok cat2 ∧
        QueryRowScan (env.queryErr (.has_schema_privilege d.schema_id d.group_id))
          (has_schema_privilege_query cat2 d.schema_id d.group_id) = .ok row := by
  cases hb : env.beginErr with
  | some txErr => rw [create_begin_error env d w txErr hb] at h; simp at h
  | none =>
    by_cases hg : grantKeywords d = []
    · rw [create_no_grants env d w hb hg] at h; simp at h
    · cases hs : env.GetSchemanNameForSchemaId w.catalog d.schema_id with
      | error e => rw [create_schema_error env d w e hb hg hs] at h; simp at h
      | ok schema_name =>
        cases hn : env.GetGroupNameForGroupId w.catalog d.group_id with
        | error e => rw [create_group_error env d w schema_name e hb hg hs hn] at h; simp at h
        | ok group_name =>
          cases h1 : env.Exec w.catalog
              (grant_privilege_statement (grantKeywords d) schema_name group_name) with
          | error e =>
            rw [create_grant_error env d w schema_name group_name e hb hg hs hn h1] at h
            simp at h
          | ok cat1 =>
            cases h2 : env.Exec cat1
                (default_privileges_statement (grantKeywords d) schema_name group_name) with
            | error e =>
              rw [create_alter_error env d w schema_name group_name cat1 e hb hg hs hn h1 h2] at h
              simp at h
            | ok cat2 =>
              cases h3 : QueryRowScan (env.queryErr (.has_schema_privilege d.schema_id d.group_id))
                  (has_schema_privilege_query cat2 d.schema_id d.group_id) with
              | error e =>
                rw [create_read_error env d w schema_name group_name cat1 cat2 e hb hg hs hn h1 h2
                  h3] at h
                simp at h
              | ok row =>
                exact ⟨rfl, hg, schema_name, group_name, cat1, cat2, row, rfl, rfl, h1, h2, h3⟩

theorem readOp_begin_error (env : Env) (d : ResourceData) (w : World) (txErr : Err)
    (hb : env.beginErr = some txErr) :
    resourceRedshiftSchemaGroupPrivilegeRead env d w = ⟨.panicked txErr, d, w⟩ := by
  simp [resourceRedshiftSchemaGroupPrivilegeRead, Begin, hb]

theorem readOp_error (env : Env) (d : ResourceData) (w : World) (err : Err)
    (hb : env.beginErr = none)
    (h : QueryRowScan (env.queryErr (.has_schema_privilege d.schema_id d.group_id))
      (has_schema_privilege_query w.catalog d.schema_id d.group_id) = .error err) :
    resourceRedshiftSchemaGroupPrivilegeRead env d w =
      ⟨.returned (some err), d,
        { w with trace := w.trace ++
          [.begin, .queryRow (.has_schema_privilege d.schema_id d.group_id),
            .rollback] }⟩ := by
  simp [resourceRedshiftSchemaGroupPrivilegeRead, Begin, hb, readRedshiftSchemaGroupPrivilege, h,
    Tx.Rollback, World.log]

theorem readOp_ok (env : Env) (d : ResourceData) (w : World) (row : PrivilegeRow)
    (hb : env.beginErr = none)
    (h : QueryRowScan (env.queryErr (.has_schema_privilege d.schema_id d.group_id))
      (has_schema_privilege_query w.catalog d.schema_id d.group_id) = .ok row) :
    resourceRedshiftSchemaGroupPrivilegeRead env d w =
      ⟨.returned none, withRow d row,
        { w with trace := w.trace ++
          [.begin, .queryRow (.has_schema_privilege d.schema_id d.group_id), .commit] }⟩ := by
  simp [resourceRedshiftSchemaGroupPrivilegeRead, Begin, hb, readRedshiftSchemaGroupPrivilege, h,
    Tx.Commit, World.log, withRow]

theorem newEvents_append {α : Type} (w : World) (o : Outcome α) (d : ResourceData) (cat : Catalog)
    (l : List Event) :
    newEvents w (⟨o, d, { catalog := cat, trace := w.trace ++ l }⟩ : Run α) = l := by
  simp [newEvents]

theorem newEvents_self {α : Type} (w : World) (o : Outcome α) (d : ResourceData) :
    newEvents w (⟨o, d, w⟩ : Run α) = [] := by
  simp [newEvents]

/-! ## Create: validation, statements, failure paths, commit -/

/-- C1, amended: with all five flags false, Create executes no SQL (no lookup,
no statement, no query), never commits, and leaves the resource state, its
identity included, and the catalog as they were.  When `Begin` has opened the
transaction Create rolls it back and returns the validation error, nothing else
having reached the database; when `Begin` fails Create panics with the error of
`Begin`.  Create returns nothing but the validation error. -/
theorem create_without_privilege (env : Env) (d : ResourceData) (w : World)
    (hflags : d.select = false ∧ d.insert = false ∧ d.update = false ∧ d.delete = false
      ∧ d.references = false) :
    (env.beginErr = none →
      (resourceRedshiftSchemaGroupPrivilegeCreate env d w).outcome
          = .returned (some noPrivilegeErr)
        ∧ newEvents w (resourceRedshiftSchemaGroupPrivilegeCreate env d w)
          = [.begin, .rollback])
      ∧ (∀ txErr, env.beginErr = some txErr →
          (resourceRedshiftSchemaGroupPrivilegeCreate env d w).outcome = .panicked txErr)
      ∧ (∀ v, (resourceRedshiftSchemaGroupPrivilegeCreate env d w).outcome = .returned v →
          v = some noPrivilegeErr)
      ∧ (∀ e ∈ newEvents w (resourceRedshiftSchemaGroupPrivilegeCreate env d w),
          e.isSql = false ∧ e ≠ .commit)
      ∧ (resourceRedshiftSchemaGroupPrivilegeCreate env d w).data = d
      ∧ (resourceRedshiftSchemaGroupPrivilegeCreate env d w).world.catalog = w.catalog := by
  have hg : grantKeywords d = [] := (grantKeywords_eq_nil_iff d).2 hflags
  cases hb : env.beginErr with
  | some txErr =>
    rw [create_begin_error env d w txErr hb]
    simp [newEvents]
  | none =>
    rw [create_no_grants env d w hb hg]
    refine ⟨fun _ => ⟨rfl, newEvents_append _ _ _ _ _⟩, fun txErr h => by simp at h,
      fun v h => ?_, ?_, rfl, rfl⟩
    · simp only [Outcome.returned.injEq] at h
      exact h.symm
    · intro e he
      rw [newEvents_append] at he
      simp only [List.mem_cons, List.mem_singleton, List.not_mem_nil, or_false] at he
      rcases he with rfl | rfl <;> simp [Event.isSql]

/-- C1 as stated fails: schema 5, group 7, no flag set, on a database that
cannot open a transaction.  Create panics with the error of `Begin` and does
not return the validation error. -/
theorem create_panics_before_validation :
    resourceRedshiftSchemaGroupPrivilegeCreate beginFailsEnv (blank 5 7) demoWorld
      = ⟨.panicked (.msg "begin failed"), blank 5 7, demoWorld⟩
    ∧ (resourceRedshiftSchemaGroupPrivilegeCreate beginFailsEnv (blank 5 7) demoWorld).outcome
      ≠ .returned (some noPrivilegeErr) := by
  decide

/-- Witness of C1: schema 5, group 7, no flag set, on a database where every
call succeeds. -/
theorem create_without_privilege_witness :
    (resourceRedshiftSchemaGroupPrivilegeCreate (demoEnv (blank 5 7) "analysts") (blank 5 7)
        demoWorld).outcome = .returned (some (.msg "Must have at least 1 privilige"))
      ∧ newEvents demoWorld
          (resourceRedshiftSchemaGroupPrivilegeCreate (demoEnv (blank 5 7) "analysts") (blank 5 7)
            demoWorld) = [.begin, .rollback] :=
  (create_without_privilege (demoEnv (blank 5 7) "analysts") (blank 5 7) demoWorld
    ⟨rfl, rfl, rfl, rfl, rfl⟩).1 rfl

theorem grantKeywords_join (d : ResourceData) :
    ",".intercalate (grantKeywords d) = specPrivilegeList d := by
  rcases d with ⟨id, sid, gid, a, b, c, e, f⟩
  cases a <;> cases b <;> cases c <;> cases e <;> cases f <;> rfl

/-- C2: a Create in which no step fails, with the schema resolved to `s` and
the group to `g`, executes exactly two statements, the GRANT and then the ALTER
DEFAULT PRIVILEGES, both with the comma-joined list of the keywords whose flag
is true, in the order SELECT, INSERT, UPDATE, DELETE, REFERENCES. -/
theorem create_statements (env : Env) (d : ResourceData) (w : World) (s g : String)
    (hs : env.GetSchemanNameForSchemaId w.catalog d.schema_id = .ok s)
    (hn : env.GetGroupNameForGroupId w.catalog d.group_id = .ok g)
    (hok : (resourceRedshiftSchemaGroupPrivilegeCreate env d w).outcome = .returned none) :
    execStatements (newEvents w (resourceRedshiftSchemaGroupPrivilegeCreate env d w)) =
      [ "GRANT " ++ specPrivilegeList d ++ " ON ALL TABLES IN SCHEMA " ++ s ++ " TO GROUP " ++ g,
        "ALTER DEFAULT PRIVILEGES IN SCHEMA " ++ s ++ " GRANT " ++ specPrivilegeList d
          ++ " ON TABLES TO GROUP " ++ g ] := by
  obtain ⟨hb, hg, s1, g1, cat1, cat2, row, hs1, hn1, h1, h2, h3⟩ :=
    create_returned_none env d w hok
  rw [hs] at hs1
  rw [hn] at hn1
  cases hs1
  cases hn1
  rw [create_ok env d w s g cat1 cat2 row hb hg hs hn h1 h2 h3, newEvents_append]
  simp [execStatements, grant_privilege_statement, default_privileges_statement,
    grantKeywords_join]

/-- Witness of C2: schema 5 (`sales`), group 7 (`analysts`), select and insert
set, give the list `SELECT,INSERT`. -/
theorem create_statements_witness :
    execStatements (newEvents demoWorld
        (resourceRedshiftSchemaGroupPrivilegeCreate
          (demoEnv selectInsert57 "analysts") selectInsert57 demoWorld)) =
      [ "GRANT SELECT,INSERT ON ALL TABLES IN SCHEMA sales TO GROUP analysts",
        "ALTER DEFAULT PRIVILEGES IN SCHEMA sales GRANT SELECT,INSERT ON TABLES TO GROUP analysts" ] :=
  create_statements (demoEnv selectInsert57 "analysts") selectInsert57 demoWorld "sales"
    "analysts" rfl rfl (by decide)

theorem read_fst (env : Env) (d : ResourceData) (tx : Tx) (w : World) :
    (readRedshiftSchemaGroupPrivilege env d tx w).1 =
      match QueryRowScan (env.queryErr (.has_schema_privilege d.schema_id d.group_id))
          (has_schema_privilege_query tx.working d.schema_id d.group_id) with
      | .ok _ => none
      | .error err => some err := by
  cases h : QueryRowScan (env.queryErr (.has_schema_privilege d.schema_id d.group_id))
      (has_schema_privilege_query tx.working d.schema_id d.group_id) with
  | error err =>
    cases hf : tx.finished <;> simp [readRedshiftSchemaGroupPrivilege, h, Tx.Rollback, hf]
  | ok row => rw [read_ok env d tx w row h]

/-- C6, on the code: when the schema lookup, the group lookup, the GRANT or the
ALTER DEFAULT PRIVILEGES fails in a Create with a flag set, `log.Fatal` ends
the process with the error of the failing step.  Create does not return that
error and calls no rollback; nothing later is executed, nothing is committed,
the identity is not set and the committed catalog is as before. -/
theorem create_failure_is_fatal (env : Env) (d : ResourceData) (w : World)
    (hb : env.beginErr = none) (hg : grantKeywords d ≠ []) :
    (∀ err, env.GetSchemanNameForSchemaId w.catalog d.schema_id = .error err →
      resourceRedshiftSchemaGroupPrivilegeCreate env d w =
        ⟨.fatal err, d, { w with trace := w.trace ++ [.begin, .schemaLookup d.schema_id] }⟩)
    ∧ (∀ s err, env.GetSchemanNameForSchemaId w.catalog d.schema_id = .ok s →
      env.GetGroupNameForGroupId w.catalog d.group_id = .error err →
      resourceRedshiftSchemaGroupPrivilegeCreate env d w =
        ⟨.fatal err, d, { w with trace := w.trace ++
          [.begin, .schemaLookup d.schema_id, .groupLookup d.group_id] }⟩)
    ∧ (∀ s g err, env.GetSchemanNameForSchemaId w.catalog d.schema_id = .ok s →
      env.GetGroupNameForGroupId w.catalog d.group_id = .ok g →
      env.Exec w.catalog (grant_privilege_statement (grantKeywords d) s g) = .error err →
      resourceRedshiftSchemaGroupPrivilegeCreate env d w =
        ⟨.fatal err, d, { w with trace := w.trace ++
          [.begin, .schemaLookup d.schema_id, .groupLookup d.group_id,
            .exec (grant_privilege_statement (grantKeywords d) s g)] }⟩)
    ∧ (∀ s g cat1 err, env.GetSchemanNameForSchemaId w.catalog d.schema_id = .ok s →
      env.GetGroupNameForGroupId w.catalog d.group_id = .ok g →
      env.Exec w.catalog (grant_privilege_statement (grantKeywords d) s g) = .ok cat1 →
      env.Exec cat1 (default_privileges_statement (grantKeywords d) s g) = .error err →
      resourceRedshiftSchemaGroupPrivilegeCreate env d w =
        ⟨.fatal err, d, { w with trace := w.trace ++
          [.begin, .schemaLookup d.schema_id, .groupLookup d.group_id,
            .exec (grant_privilege_statement (grantKeywords d) s g),
            .exec (default_privileges_statement (grantKeywords d) s g)] }⟩) :=
  ⟨fun err hs => create_schema_error env d w err hb hg hs,
    fun s err hs hn => create_group_error env d w s err hb hg hs hn,
    fun s g err hs hn h1 => create_grant_error env d w s g err hb hg hs hn h1,
    fun s g cat1 err hs hn h1 h2 => create_alter_error env d w s g cat1 err hb hg hs hn h1 h2⟩

/-- Witness of C6: select asked for on schema 6, which the lookup does not
resolve: the process ends in `log.Fatal` after the lookup, no rollback is
called and no error is returned to the host.  The same with select and insert
on schema 5, group 7, when the GRANT succeeds and the ALTER DEFAULT PRIVILEGES
is refused. -/
theorem create_failure_is_fatal_witness :
    resourceRedshiftSchemaGroupPrivilegeCreate (demoEnv selectOn6 "analysts") selectOn6 demoWorld
        = ⟨.fatal (.msg "schema not found"), selectOn6,
          ⟨demoCatalog, [.begin, .schemaLookup 6]⟩⟩
    ∧ resourceRedshiftSchemaGroupPrivilegeCreate alterFailsEnv selectInsert57 demoWorld
        = ⟨.fatal (.msg "permission denied"), selectInsert57,
          ⟨demoCatalog,
            [.begin, .schemaLookup 5, .groupLookup 7,
              .exec "GRANT SELECT,INSERT ON ALL TABLES IN SCHEMA sales TO GROUP analysts",
              .exec ("ALTER DEFAULT PRIVILEGES IN SCHEMA sales GRANT SELECT,INSERT"
                ++ " ON TABLES TO GROUP analysts")]⟩⟩ :=
  ⟨(create_failure_is_fatal (demoEnv selectOn6 "analysts") selectOn6 demoWorld rfl
      (by decide)).1 (.msg "schema not found") rfl,
    (create_failure_is_fatal alterFailsEnv selectInsert57 demoWorld rfl
      (by decide)).2.2.2 "sales" "analysts" demoCatalog (.msg "permission denied") rfl rfl rfl
      rfl⟩

/-- C7: when the lookups and both statements succeed, Create commits exactly
when the confirmation read succeeds.  If the read succeeds Create commits, does
not roll back, publishes the catalog of the transaction and returns no error;
if the read fails Create rolls back, does not commit, leaves the committed
catalog as it was and returns the error of the read. -/
theorem create_commits_iff_read_ok (env : Env) (d : ResourceData) (w : World) (s g : String)
    (cat1 cat2 : Catalog) (hb : env.beginErr = none) (hg : grantKeywords d ≠ [])
    (hs : env.GetSchemanNameForSchemaId w.catalog d.schema_id = .ok s)
    (hn : env.GetGroupNameForGroupId w.catalog d.group_id = .ok g)
    (h1 : env.Exec w.catalog (grant_privilege_statement (grantKeywords d) s g) = .ok cat1)
    (h2 : env.Exec cat1 (default_privileges_statement (grantKeywords d) s g) = .ok cat2)
    (w2 : World) :
    ((readRedshiftSchemaGroupPrivilege env { d with id := createId env d } ⟨cat2, false⟩ w2).1 = none →
      (resourceRedshiftSchemaGroupPrivilegeCreate env d w).outcome = .returned none
        ∧ Event.commit ∈ newEvents w (resourceRedshiftSchemaGroupPrivilegeCreate env d w)
        ∧ Event.rollback ∉ newEvents w (resourceRedshiftSchemaGroupPrivilegeCreate env d w)
        ∧ (resourceRedshiftSchemaGroupPrivilegeCreate env d w).world.catalog = cat2)
    ∧ (∀ readErr,
      (readRedshiftSchemaGroupPrivilege env { d with id := createId env d } ⟨cat2, false⟩ w2).1
          = some readErr →
      (resourceRedshiftSchemaGroupPrivilegeCreate env d w).outcome = .returned (some readErr)
        ∧ Event.rollback ∈ newEvents w (resourceRedshiftSchemaGroupPrivilegeCreate env d w)
        ∧ Event.commit ∉ newEvents w (resourceRedshiftSchemaGroupPrivilegeCreate env d w)
        ∧ (resourceRedshiftSchemaGroupPrivilegeCreate env d w).world.catalog = w.catalog)
    ∧ (Event.commit ∈ newEvents w (resourceRedshiftSchemaGroupPrivilegeCreate env d w) ↔
      (readRedshiftSchemaGroupPrivilege env { d with id := createId env d } ⟨cat2, false⟩ w2).1
        = none) := by
  rw [read_fst]
  cases h3 : QueryRowScan (env.queryErr (.has_schema_privilege d.schema_id d.group_id))
      (has_schema_privilege_query cat2 d.schema_id d.group_id) with
  | error err =>
    rw [create_read_error env d w s g cat1 cat2 err hb hg hs hn h1 h2 h3]
    simp [newEvents, h3]
  | ok row =>
    rw [create_ok env d w s g cat1 cat2 row hb hg hs hn h1 h2 h3]
    simp [newEvents, h3]

/-- Witness of C7: schema 5, group 7, select and insert, on a database whose
catalog queries fail: Create returns the error of the read. -/
theorem create_commits_iff_read_ok_witness :
    (resourceRedshiftSchemaGroupPrivilegeCreate (queryFailsEnv selectInsert57 "analysts")
        selectInsert57 demoWorld).outcome = .returned (some (.msg "connection reset"))
      ∧ Event.rollback ∈ newEvents demoWorld
          (resourceRedshiftSchemaGroupPrivilegeCreate (queryFailsEnv selectInsert57 "analysts")
            selectInsert57 demoWorld)
      ∧ Event.commit ∉ newEvents demoWorld
          (resourceRedshiftSchemaGroupPrivilegeCreate (queryFailsEnv selectInsert57 "analysts")
            selectInsert57 demoWorld)
      ∧ (resourceRedshiftSchemaGroupPrivilegeCreate (queryFailsEnv selectInsert57 "analysts")
          selectInsert57 demoWorld).world.catalog = demoWorld.catalog :=
  (create_commits_iff_read_ok (queryFailsEnv selectInsert57 "analysts") selectInsert57 demoWorld
    "sales" "analysts" demoCatalog
    (recordDefaultGrant demoCatalog 5 100 "analysts" "ar" "admin") rfl (by decide) rfl rfl
    rfl rfl demoWorld).2.1 (.msg "connection reset") rfl

/-! ## Exists, Read, Import -/

/-- C4: Exists returns (false, no error) when its query yields no row, (true,
no error) when it yields a row, and (false, the error) when the query fails
with any other error; it sends that one query and nothing else, and changes
neither the resource state nor the catalog. -/
theorem exists_outcomes (env : Env) (d : ResourceData) (w : World) :
    (env.queryErr (.aclExists d.id) = none → aclExistsQuery w.catalog d.id = [] →
      (resourceRedshiftSchemaGroupPrivilegeExists env d w).outcome = .returned (false, none))
    ∧ (env.queryErr (.aclExists d.id) = some .ErrNoRows →
      (resourceRedshiftSchemaGroupPrivilegeExists env d w).outcome = .returned (false, none))
    ∧ (env.queryErr (.aclExists d.id) = none → aclExistsQuery w.catalog d.id ≠ [] →
      (resourceRedshiftSchemaGroupPrivilegeExists env d w).outcome = .returned (true, none))
    ∧ (∀ err, err ≠ .ErrNoRows → env.queryErr (.aclExists d.id) = some err →
      (resourceRedshiftSchemaGroupPrivilegeExists env d w).outcome
        = .returned (false, some err))
    ∧ newEvents w (resourceRedshiftSchemaGroupPrivilegeExists env d w)
      = [.queryRow (.aclExists d.id)]
    ∧ (resourceRedshiftSchemaGroupPrivilegeExists env d w).data = d
    ∧ (resourceRedshiftSchemaGroupPrivilegeExists env d w).world.catalog = w.catalog := by
  unfold resourceRedshiftSchemaGroupPrivilegeExists
  cases hq : env.queryErr (.aclExists d.id) with
  | some err =>
    by_cases he : err = .ErrNoRows
    · simp [QueryRowScan, World.log, newEvents, hq, he]
      intro err1 h1 h2
      exact h1 h2.symm
    · simp [QueryRowScan, World.log, newEvents, hq, he]
  | none =>
    cases hr : aclExistsQuery w.catalog d.id with
    | nil => simp [QueryRowScan, World.log, newEvents, hq, hr]
    | cons a rest => simp [QueryRowScan, World.log, newEvents, hq, hr]

/-- Witness of C4: the identity `5_7` on a catalog without default ACL: no row,
so (false, no error). -/
theorem exists_outcomes_witness :
    (resourceRedshiftSchemaGroupPrivilegeExists (demoEnv selectInsert57 "analysts")
        { selectInsert57 with id := "5_7" } demoWorld).outcome = .returned (false, none) :=
  (exists_outcomes (demoEnv selectInsert57 "analysts") { selectInsert57 with id := "5_7" }
    demoWorld).1 rfl (by decide)

theorem readOp_returned_none (env : Env) (d : ResourceData) (w : World)
    (h : (resourceRedshiftSchemaGroupPrivilegeRead env d w).outcome = .returned none) :
    env.beginErr = none ∧ ∃ row,
      QueryRowScan (env.queryErr (.has_schema_privilege d.schema_id d.group_id))
        (has_schema_privilege_query w.catalog d.schema_id d.group_id) = .ok row := by
  cases hb : env.beginErr with
  | some txErr => rw [readOp_begin_error env d w txErr hb] at h; simp at h
  | none =>
    cases h3 : QueryRowScan (env.queryErr (.has_schema_privilege d.schema_id d.group_id))
        (has_schema_privilege_query w.catalog d.schema_id d.group_id) with
    | error e => rw [readOp_error env d w e hb h3] at h; simp at h
    | ok row => exact ⟨rfl, row, rfl⟩

theorem scan_ok_head {α : Type} (fault : Option Err) (rows : List α) (r : α)
    (h : QueryRowScan fault rows = .ok r) : fault = none ∧ rows.head? = some r := by
  cases fault with
  | some e => simp [QueryRowScan] at h
  | none =>
    cases rows with
    | nil => simp [QueryRowScan] at h
    | cons a rest =>
      simp only [QueryRowScan, Except.ok.injEq] at h
      simp [h]

/-- C8, amended: Import ends as Read does on the same resource state and
leaves the same state and world.  When Read succeeds Import returns the list of
exactly one resource, the one Read refreshed, and no error; the flags come from
the first row of the privilege query for the `schema_id` and `group_id`
attributes of the state.  When Read fails Import returns no resource and the
error of Read. -/
theorem import_refines_read (env : Env) (d : ResourceData) (w : World) :
    (resourceRedshiftSchemaGroupPrivilegeImport env d w).data
        = (resourceRedshiftSchemaGroupPrivilegeRead env d w).data
    ∧ (resourceRedshiftSchemaGroupPrivilegeImport env d w).world
        = (resourceRedshiftSchemaGroupPrivilegeRead env d w).world
    ∧ flags (resourceRedshiftSchemaGroupPrivilegeImport env d w).data
        = flags (resourceRedshiftSchemaGroupPrivilegeRead env d w).data
    ∧ ((resourceRedshiftSchemaGroupPrivilegeRead env d w).outcome = .returned none →
      (resourceRedshiftSchemaGroupPrivilegeImport env d w).outcome
          = .returned ([(resourceRedshiftSchemaGroupPrivilegeRead env d w).data], none)
        ∧ ∃ row, (has_schema_privilege_query w.catalog d.schema_id d.group_id).head? = some row
          ∧ (resourceRedshiftSchemaGroupPrivilegeRead env d w).data = withRow d row)
    ∧ (∀ err, (resourceRedshiftSchemaGroupPrivilegeRead env d w).outcome = .returned (some err) →
      (resourceRedshiftSchemaGroupPrivilegeImport env d w).outcome = .returned ([], some err)) := by
  have hrow : (resourceRedshiftSchemaGroupPrivilegeRead env d w).outcome = .returned none →
      ∃ row, (has_schema_privilege_query w.catalog d.schema_id d.group_id).head? = some row
        ∧ (resourceRedshiftSchemaGroupPrivilegeRead env d w).data = withRow d row := by
    intro h
    obtain ⟨hb, row, h3⟩ := readOp_returned_none env d w h
    exact ⟨row, (scan_ok_head _ _ _ h3).2, by rw [readOp_ok env d w row hb h3]⟩
  unfold resourceRedshiftSchemaGroupPrivilegeImport
  generalize resourceRedshiftSchemaGroupPrivilegeRead env d w = r at hrow ⊢
  rcases r with ⟨o, d1, w1⟩
  cases o with
  | returned v =>
    cases v with
    | none => exact ⟨rfl, rfl, rfl, fun h => ⟨rfl, hrow h⟩, fun err h => by simp at h⟩
    | some e =>
      refine ⟨rfl, rfl, rfl, fun h => by simp at h, fun err h => ?_⟩
      simp only [Outcome.returned.injEq, Option.some.injEq] at h
      simp [h]
  | panicked e => exact ⟨rfl, rfl, rfl, fun h => by simp at h, fun err h => by simp at h⟩
  | fatal e => exact ⟨rfl, rfl, rfl, fun h => by simp at h, fun err h => by simp at h⟩

/-- Witness of C8: Import of the state with attributes (5, 8) on the catalog
with items for `analysts` and `dev` returns the one resource Read refreshed. -/
theorem import_refines_read_witness :
    (resourceRedshiftSchemaGroupPrivilegeImport (demoEnv selectInsert57 "analysts")
        identity57group8 ⟨twoGroupsCatalog, []⟩).outcome
      = .returned ([(resourceRedshiftSchemaGroupPrivilegeRead (demoEnv selectInsert57 "analysts")
          identity57group8 ⟨twoGroupsCatalog, []⟩).data], none) :=
  ((import_refines_read (demoEnv selectInsert57 "analysts") identity57group8
    ⟨twoGroupsCatalog, []⟩).2.2.2.1 (by decide)).1

/-- C8 as stated fails: the state carries the identity `5_7` and the attributes
schema 5, group 8.  Import succeeds with one resource whose only true flag is
update, read from the item of group 8, while the one row keyed by the identity
`5_7` has select as its only true flag. -/
theorem import_ignores_identity :
    (resourceRedshiftSchemaGroupPrivilegeImport (demoEnv selectInsert57 "analysts")
        identity57group8 ⟨twoGroupsCatalog, []⟩).outcome
      = .returned ([{ identity57group8 with update := true }], none)
    ∧ (privilegeRowsOfIdentity twoGroupsCatalog identity57group8.id).map
        (fun row => flags (withRow identity57group8 row))
      = [[true, false, false, false, false]] := by
  decide

/-! ## Transactions -/

theorem create_closed (env : Env) (d : ResourceData) (w : World) (v : Option Err)
    (h : (resourceRedshiftSchemaGroupPrivilegeCreate env d w).outcome = .returned v) :
    transactionClosed (newEvents w (resourceRedshiftSchemaGroupPrivilegeCreate env d w))
      = true := by
  cases hb : env.beginErr with
  | some txErr => rw [create_begin_error env d w txErr hb] at h; simp at h
  | none =>
    by_cases hg : grantKeywords d = []
    · rw [create_no_grants env d w hb hg, newEvents_append]
      decide
    · cases hs : env.GetSchemanNameForSchemaId w.catalog d.schema_id with
      | error e => rw [create_schema_error env d w e hb hg hs] at h; simp at h
      | ok schema_name =>
        cases hn : env.GetGroupNameForGroupId w.catalog d.group_id with
        | error e => rw [create_group_error env d w schema_name e hb hg hs hn] at h; simp at h
        | ok group_name =>
          cases h1 : env.Exec w.catalog
              (grant_privilege_statement (grantKeywords d) schema_name group_name) with
          | error e =>
            rw [create_grant_error env d w schema_name group_name e hb hg hs hn h1] at h
            simp at h
          | ok cat1 =>
            cases h2 : env.Exec cat1
                (default_privileges_statement (grantKeywords d) schema_name group_name) with
            | error e =>
              rw [create_alter_error env d w schema_name group_name cat1 e hb hg hs hn h1 h2] at h
              simp at h
            | ok cat2 =>
              cases h3 : QueryRowScan (env.queryErr (.has_schema_privilege d.schema_id d.group_id))
                  (has_schema_privilege_query cat2 d.schema_id d.group_id) with
              | error e =>
                rw [create_read_error env d w schema_name group_name cat1 cat2 e hb hg hs hn h1 h2
                  h3, newEvents_append]
                simp [transactionClosed, List.count_cons]
              | ok row =>
                rw [create_ok env d w schema_name group_name cat1 cat2 row hb hg hs hn h1 h2 h3,
                  newEvents_append]
                simp [transactionClosed, List.count_cons]

theorem readOp_closed (env : Env) (d : ResourceData) (w : World) (v : Option Err)
    (h : (resourceRedshiftSchemaGroupPrivilegeRead env d w).outcome = .returned v) :
    transactionClosed (newEvents w (resourceRedshiftSchemaGroupPrivilegeRead env d w)) = true := by
  cases hb : env.beginErr with
  | some txErr => rw [readOp_begin_error env d w txErr hb] at h; simp at h
  | none =>
    cases h3 : QueryRowScan (env.queryErr (.has_schema_privilege d.schema_id d.group_id))
        (has_schema_privilege_query w.catalog d.schema_id d.group_id) with
    | error e =>
      rw [readOp_error env d w e hb h3, newEvents_append]
      simp [transactionClosed, List.count_cons]
    | ok row =>
      rw [readOp_ok env d w row hb h3, newEvents_append]
      simp [transactionClosed, List.count_cons]

theorem import_world (env : Env) (d : ResourceData) (w : World) :
    (resourceRedshiftSchemaGroupPrivilegeImport env d w).world
        = (resourceRedshiftSchemaGroupPrivilegeRead env d w).world
      ∧ ∀ v, (resourceRedshiftSchemaGroupPrivilegeImport env d w).outcome = .returned v →
        ∃ v1, (resourceRedshiftSchemaGroupPrivilegeRead env d w).outcome = .returned v1 := by
  unfold resourceRedshiftSchemaGroupPrivilegeImport
  generalize resourceRedshiftSchemaGroupPrivilegeRead env d w = r
  rcases r with ⟨o, d1, w1⟩
  cases o with
  | returned v1 =>
    cases v1 with
    | none => exact ⟨rfl, fun v _ => ⟨none, rfl⟩⟩
    | some e => exact ⟨rfl, fun v _ => ⟨some e, rfl⟩⟩
  | panicked e => exact ⟨rfl, fun v h => by simp at h⟩
  | fatal e => exact ⟨rfl, fun v h => by simp at h⟩

theorem exists_run (env : Env) (d : ResourceData) (w : World) :
    ∃ v, resourceRedshiftSchemaGroupPrivilegeExists env d w =
      ⟨.returned v, d, { w with trace := w.trace ++ [.queryRow (.aclExists d.id)] }⟩ := by
  unfold resourceRedshiftSchemaGroupPrivilegeExists
  cases h : QueryRowScan (env.queryErr (.aclExists d.id)) (aclExistsQuery w.catalog d.id) with
  | error err =>
    by_cases he : err = .ErrNoRows
    · exact ⟨(false, none), by simp [World.log, h, he]⟩
    · exact ⟨(false, some err), by simp [World.log, h, he]⟩
  | ok a => exact ⟨(true, none), by simp [World.log, h]⟩

/-- C10, amended: on every path by which Create, Read or Import returns to the
host it has opened exactly one transaction, before anything else, and that
transaction has been ended exactly once, by the commit or the rollback that
comes last: none is left open and none is ended twice.  Exists always returns
and opens no transaction: its trace is its one query. -/
theorem transactions_closed (env : Env) (d : ResourceData) (w : World) :
    (∀ v, (resourceRedshiftSchemaGroupPrivilegeCreate env d w).outcome = .returned v →
      transactionClosed (newEvents w (resourceRedshiftSchemaGroupPrivilegeCreate env d w))
        = true)
    ∧ (∀ v, (resourceRedshiftSchemaGroupPrivilegeRead env d w).outcome = .returned v →
      transactionClosed (newEvents w (resourceRedshiftSchemaGroupPrivilegeRead env d w)) = true)
    ∧ (∀ v, (resourceRedshiftSchemaGroupPrivilegeImport env d w).outcome = .returned v →
      transactionClosed (newEvents w (resourceRedshiftSchemaGroupPrivilegeImport env d w))
        = true)
    ∧ (∃ v, (resourceRedshiftSchemaGroupPrivilegeExists env d w).outcome = .returned v)
    ∧ newEvents w (resourceRedshiftSchemaGroupPrivilegeExists env d w)
      = [.queryRow (.aclExists d.id)] := by
  refine ⟨create_closed env d w, readOp_closed env d w, ?_, ?_, ?_⟩
  · intro v h
    obtain ⟨v1, h1⟩ := (import_world env d w).2 v h
    have := readOp_closed env d w v1 h1
    simpa [newEvents, (import_world env d w).1] using this
  · obtain ⟨v, hv⟩ := exists_run env d w
    exact ⟨v, by rw [hv]⟩
  · obtain ⟨v, hv⟩ := exists_run env d w
    rw [hv, newEvents_append]

/-- Witness of C10: the successful Create of schema 5, group 7, select and
insert, opens one transaction and closes it by its commit. -/
theorem transactions_closed_witness :
    transactionClosed (newEvents demoWorld
      (resourceRedshiftSchemaGroupPrivilegeCreate (demoEnv selectInsert57 "analysts")
        selectInsert57 demoWorld)) = true :=
  (transactions_closed (demoEnv selectInsert57 "analysts") selectInsert57 demoWorld).1 none
    (by decide)

/-- C10 as stated fails: Exists on the identity `5_7` returns to the host having
opened no transaction; its whole trace is its one query, sent on the
connection itself. -/
theorem exists_opens_no_transaction :
    (resourceRedshiftSchemaGroupPrivilegeExists (demoEnv selectInsert57 "analysts")
        { selectInsert57 with id := "5_7" } demoWorld).outcome = .returned (false, none)
    ∧ (newEvents demoWorld
        (resourceRedshiftSchemaGroupPrivilegeExists (demoEnv selectInsert57 "analysts")
          { selectInsert57 with id := "5_7" } demoWorld)).count .begin = 0
    ∧ newEvents demoWorld
        (resourceRedshiftSchemaGroupPrivilegeExists (demoEnv selectInsert57 "analysts")
          { selectInsert57 with id := "5_7" } demoWorld)
      = [.queryRow (.aclExists "5_7")] := by
  decide

/-! ## The key of the Exists query -/

theorem digitChar_spec (n : Nat) (h : n < 10) :
    (Nat.digitChar n).toNat = 48 + n ∧ Nat.digitChar n ≠ '_' ∧ Nat.digitChar n ≠ '-' := by
  interval_cases n <;> decide

theorem toDigitsCore_spec (fuel : Nat) : ∀ (n : Nat) (ds : List Char), n < fuel →
    ∃ l, Nat.toDigitsCore 10 fuel n ds = l ++ ds ∧ l ≠ [] ∧
      (∀ c ∈ l, c ≠ '_' ∧ c ≠ '-') ∧ digitsValue l = n := by
  induction fuel with
  | zero => intro n ds h; omega
  | succ fuel ih =>
    intro n ds h
    have hd := digitChar_spec (n % 10) (Nat.mod_lt _ (by decide))
    simp only [Nat.toDigitsCore]
    split_ifs with h0
    · refine ⟨[Nat.digitChar (n % 10)], rfl, by simp, ?_, ?_⟩
      · intro c hc
        simp only [List.mem_singleton] at hc
        subst hc
        exact hd.2
      · simp only [digitsValue, List.foldl, hd.1]
        omega
    · obtain ⟨l, hl, hne, hdig, hval⟩ := ih (n / 10) (Nat.digitChar (n % 10) :: ds) (by omega)
      refine ⟨l ++ [Nat.digitChar (n % 10)], by simp [hl], by simp, ?_, ?_⟩
      · intro c hc
        rcases List.mem_append.1 hc with hc | hc
        · exact hdig c hc
        · simp only [List.mem_singleton] at hc
          subst hc
          exact hd.2
      · simp only [digitsValue] at hval
        simp only [digitsValue, List.foldl_append, List.foldl, hval, hd.1]
        omega

theorem natRepr_spec (n : Nat) :
    (Nat.repr n).data ≠ [] ∧ (∀ c ∈ (Nat.repr n).data, c ≠ '_' ∧ c ≠ '-')
      ∧ digitsValue (Nat.repr n).data = n := by
  obtain ⟨l, hl, hne, hdig, hval⟩ := toDigitsCore_spec (n + 1) n [] (Nat.lt_succ_self n)
  have : (Nat.repr n).data = l := by
    simp [Nat.repr, Nat.toDigits, hl, List.asString]
  rw [this]
  exact ⟨hne, hdig, hval⟩

theorem int_toString_data (i : Int) :
    (∃ m : Nat, i = Int.ofNat m ∧ (toString i).data = (Nat.repr m).data) ∨
    (∃ m : Nat, i = Int.negSucc m ∧ (toString i).data = '-' :: (Nat.repr (m + 1)).data) := by
  cases i with
  | ofNat m => exact Or.inl ⟨m, rfl, rfl⟩
  | negSucc m => exact Or.inr ⟨m, rfl, rfl⟩

theorem int_toString_no_underscore (i : Int) : '_' ∉ (toString i).data := by
  intro h
  rcases int_toString_data i with ⟨m, -, hm⟩ | ⟨m, -, hm⟩
  · rw [hm] at h
    exact ((natRepr_spec m).2.1 _ h).1 rfl
  · rw [hm] at h
    rcases List.mem_cons.1 h with h | h
    · exact absurd h (by decide)
    · exact ((natRepr_spec (m + 1)).2.1 _ h).1 rfl

theorem int_toString_injective (i j : Int) (h : (toString i).data = (toString j).data) : i = j := by
  rcases int_toString_data i with ⟨m, rfl, hm⟩ | ⟨m, rfl, hm⟩ <;>
    rcases int_toString_data j with ⟨k, rfl, hk⟩ | ⟨k, rfl, hk⟩
  · rw [hm, hk] at h
    have := congrArg digitsValue h
    rw [(natRepr_spec m).2.2, (natRepr_spec k).2.2] at this
    rw [this]
  · rw [hm, hk] at h
    exfalso
    have hne := (natRepr_spec m).1
    have hdig := (natRepr_spec m).2.1
    rw [h] at hdig
    exact (hdig '-' (List.mem_cons_self _ _)).2 rfl
  · rw [hm, hk] at h
    exfalso
    have hdig := (natRepr_spec k).2.1
    rw [← h] at hdig
    exact (hdig '-' (List.mem_cons_self _ _)).2 rfl
  · rw [hm, hk] at h
    have h2 := congrArg digitsValue (List.cons.inj h).2
    rw [(natRepr_spec (m + 1)).2.2, (natRepr_spec (k + 1)).2.2] at h2
    have : m = k := by omega
    rw [this]

/-- The key the query of Exists compares with the identity determines the
schema and the group. -/
theorem aclKey_injective (a b c d : Int) (h : aclKey a b = aclKey c d) : a = c ∧ b = d := by
  have h1 := congrArg String.data h
  simp only [aclKey, String.data_append] at h1
  have h2 : (toString a).data ++ '_' :: (toString b).data
      = (toString c).data ++ '_' :: (toString d).data := by
    simpa using h1
  obtain ⟨hac, -, hbd⟩ := (List.append_cons_inj_of_not_mem (int_toString_no_underscore a)
    (int_toString_no_underscore b)).1 h2
  exact ⟨int_toString_injective a c hac, int_toString_injective b d hbd⟩

/-! ## Decoding the ACL string -/

theorem splitOnAux_ne_nil (delim : List Char) : ∀ (s : List Char) (k : Nat),
    splitOnAux delim s k ≠ [] := by
  intro s
  induction s with
  | nil => intro k; simp [splitOnAux]
  | cons c cs ih =>
    intro k
    cases k with
    | succ k => simpa [splitOnAux] using ih k
    | zero =>
      simp only [splitOnAux]
      split_ifs
      · simp
      · split <;> simp

theorem splitOnAux_skip (delim : List Char) : ∀ (x r : List Char),
    splitOnAux delim (x ++ r) x.length = splitOnAux delim r 0 := by
  intro x
  induction x with
  | nil => intro r; cases r <;> rfl
  | cons c x ih => intro r; simpa [splitOnAux] using ih r

theorem isPrefixOf_append_self (d r : List Char) : d.isPrefixOf (d ++ r) = true := by
  induction d with
  | nil => simp
  | cons c d ih => simp [List.isPrefixOf]

/-- No occurrence of `g` in `s` starts before position `n`. -/
theorem occursBefore_eq_false (g s : List Char) (n : Nat) :
    occursBefore g s n = false ↔ ∀ i, i < n → g.isPrefixOf (s.drop i) = false := by
  induction n with
  | zero => simp [occursBefore]
  | succ n ih =>
    simp only [occursBefore, Bool.or_eq_false_iff, ih]
    constructor
    · rintro ⟨h1, h2⟩ i hi
      rcases Nat.lt_succ_iff_lt_or_eq.1 hi with h | h
      · exact h1 i h
      · rw [h]; exact h2
    · intro h
      exact ⟨fun i hi => h i (Nat.lt_succ_of_lt hi), h n (Nat.lt_succ_self n)⟩

theorem splitOnAux_prefix (delim : List Char) : ∀ (x y : List Char),
    (∀ i, i < x.length → delim.isPrefixOf ((x ++ y).drop i) = false) →
    ∃ p ps, splitOnAux delim y 0 = p :: ps ∧ splitOnAux delim (x ++ y) 0 = (x ++ p) :: ps := by
  intro x
  induction x with
  | nil =>
    intro y _
    obtain ⟨p, ps, h⟩ := List.exists_cons_of_ne_nil (splitOnAux_ne_nil delim y 0)
    exact ⟨p, ps, h, by simpa using h⟩
  | cons c x ih =>
    intro y h
    obtain ⟨p, ps, h1, h2⟩ := ih y (fun i hi => by
      have := h (i + 1) (by simpa using hi)
      simpa using this)
    refine ⟨p, ps, h1, ?_⟩
    have h0 : delim.isPrefixOf (c :: (x ++ y)) = false := by
      have := h 0 (by simp)
      simpa using this
    rw [List.cons_append, splitOnAux, if_neg (by simp [h0]), h2]
    rfl

theorem splitOnAux_delim (delim : List Char) (hne : delim ≠ []) (rest : List Char) :
    splitOnAux delim (delim ++ rest) 0 = [] :: splitOnAux delim rest 0 := by
  cases delim with
  | nil => exact absurd rfl hne
  | cons c d =>
    have hp : (c :: d).isPrefixOf (c :: (d ++ rest)) = true := isPrefixOf_append_self (c :: d) rest
    have hs := splitOnAux_skip (c :: d) d rest
    rw [List.cons_append, splitOnAux, if_pos hp]
    simp only [List.length_cons, Nat.add_sub_cancel]
    rw [hs]

theorem splitOnAux_first (delim : List Char) (hne : delim ≠ []) (pre rest : List Char)
    (h : ∀ i, i < pre.length → delim.isPrefixOf ((pre ++ (delim ++ rest)).drop i) = false) :
    splitOnAux delim (pre ++ (delim ++ rest)) 0 = pre :: splitOnAux delim rest 0 := by
  obtain ⟨p, ps, h1, h2⟩ := splitOnAux_prefix delim pre (delim ++ rest) h
  rw [splitOnAux_delim delim hne rest] at h1
  obtain ⟨rfl, rfl⟩ := List.cons.inj h1
  simpa using h2

/-- The first field of a split on `/`. -/
theorem splitOnAux_slash : ∀ (x z : List Char), '/' ∉ x → (z = [] ∨ ∃ t, z = '/' :: t) →
    (splitOnAux ['/'] (x ++ z) 0).head? = some x := by
  intro x
  induction x with
  | nil =>
    intro z _ hz
    rcases hz with rfl | ⟨t, rfl⟩
    · rfl
    · simp [splitOnAux, List.isPrefixOf]
  | cons c x ih =>
    intro z hx hz
    have hc : c ≠ '/' := fun h => hx (by simp [h])
    have hx1 : '/' ∉ x := fun h => hx (List.mem_cons_of_mem _ h)
    have := ih z hx1 hz
    obtain ⟨p, ps, hp⟩ := List.exists_cons_of_ne_nil (splitOnAux_ne_nil ['/'] (x ++ z) 0)
    rw [hp] at this
    simp only [List.head?_cons, Option.some.injEq] at this
    rw [this] at hp
    have h0 : ¬ (['/'].isPrefixOf (c :: (x ++ z)) = true) := by
      simp [List.isPrefixOf, Ne.symm hc]
    rw [List.cons_append, splitOnAux, if_neg h0, hp]
    rfl

theorem splitOnAux_head_cons (delim : List Char) (c : Char) (cs : List Char) :
    ∃ p ps, splitOnAux delim (c :: cs) 0 = p :: ps ∧ (p = [] ∨ ∃ t, p = c :: t) := by
  rw [splitOnAux]
  split_ifs
  · exact ⟨[], _, rfl, Or.inl rfl⟩
  · split
    · exact ⟨[c], [], rfl, Or.inr ⟨[], rfl⟩⟩
    · exact ⟨_, _, rfl, Or.inr ⟨_, rfl⟩⟩

theorem charindexAux_single (c : Char) : ∀ (s : List Char) (i : Nat), 0 < i →
    (charindexAux [c] s i = 0 ↔ c ∉ s) := by
  intro s
  induction s with
  | nil => intro i _; simp [charindexAux]
  | cons x xs ih =>
    intro i hi
    rw [charindexAux]
    by_cases hx : c = x
    · subst hx
      simp [List.isPrefixOf]
      omega
    · have h0 : ¬ ([c].isPrefixOf (x :: xs) = true) := by simp [List.isPrefixOf, hx]
      rw [if_neg h0, ih (i + 1) (Nat.succ_pos i)]
      simp [hx]

theorem string_data_ne_nil (g : String) (hg : g ≠ "") : g.data ≠ [] := by
  intro h
  apply hg
  cases g
  simp_all

/-- The segment the read query tests: for an ACL string `pre ++ g ++ "=" ++
letters ++ "/" ++ rest` in which `g` does not occur before its entry nor
inside `=letters`, it is `=letters`. -/
theorem split_part_entry (text g pre letters rest : String)
    (htext : text = pre ++ g ++ "=" ++ letters ++ "/" ++ rest)
    (hg : g ≠ "")
    (hfirst : occursBefore g.data text.data pre.length = false)
    (hnext : occursBefore g.data ("=" ++ letters ++ "/" ++ rest).data (letters.length + 1)
      = false)
    (hslash : '/' ∉ letters.data) :
    split_part (split_part text g 2) "/" 1 = "=" ++ letters := by
  have hgd := string_data_ne_nil g hg
  have hdata : text.data
      = pre.data ++ (g.data ++ (('=' :: letters.data) ++ ('/' :: rest.data))) := by
    rw [htext]
    simp [String.data_append]
  have hrest : ("=" ++ letters ++ "/" ++ rest).data
      = ('=' :: letters.data) ++ ('/' :: rest.data) := by
    simp [String.data_append]
  rw [hdata] at hfirst
  rw [hrest] at hnext
  have h1 := splitOnAux_first g.data hgd pre.data _
    ((occursBefore_eq_false _ _ _).1 hfirst)
  obtain ⟨p, ps, hp, h2⟩ := splitOnAux_prefix g.data ('=' :: letters.data) ('/' :: rest.data)
    (fun i hi => (occursBefore_eq_false _ _ _).1 hnext i (by
      have hlen : letters.length = letters.data.length := rfl
      rw [hlen]
      simpa using hi))
  obtain ⟨p1, ps1, hp1, hcase⟩ := splitOnAux_head_cons g.data '/' rest.data
  rw [hp] at hp1
  obtain ⟨rfl, rfl⟩ := List.cons.inj hp1
  have hx : '/' ∉ ('=' :: letters.data) := by
    intro h
    rcases List.mem_cons.1 h with h | h
    · exact absurd h (by decide)
    · exact hslash h
  have h3 := splitOnAux_slash ('=' :: letters.data) p hx hcase
  have hinner : split_part text g 2 = String.mk (('=' :: letters.data) ++ p) := by
    simp only [split_part, if_neg hgd, hdata, h1, h2]
    rfl
  rw [hinner]
  have hsl : "/".data ≠ [] := by decide
  simp only [split_part, if_neg hsl]
  have h4 : (splitOnAux "/".data (('=' :: letters.data) ++ p) 0).get? (1 - 1)
      = some ('=' :: letters.data) := by
    have : "/".data = ['/'] := rfl
    rw [this, show (1 : Nat) - 1 = 0 from rfl, List.get?_zero, h3]
  rw [h4]
  apply String.ext
  simp [String.data_append]

theorem privilegeColumn_entry (letter : String) (c : Char) (arr : List String)
    (g pre letters rest : String) (hletter : letter.data = [c]) (hc : c ≠ '=')
    (htext : array_to_string arr "|" = pre ++ g ++ "=" ++ letters ++ "/" ++ rest)
    (hg : g ≠ "")
    (hfirst : occursBefore g.data (array_to_string arr "|").data pre.length = false)
    (hnext : occursBefore g.data ("=" ++ letters ++ "/" ++ rest).data (letters.length + 1)
      = false)
    (hslash : '/' ∉ letters.data) :
    scanBool (privilegeColumn letter arr g) = decide (c ∈ letters.data) := by
  have hseg := split_part_entry _ g pre letters rest htext hg hfirst hnext hslash
  have hiff := charindexAux_single c ('=' :: letters.data) 1 Nat.one_pos
  have hd : ("=" ++ letters).data = '=' :: letters.data := by simp [String.data_append]
  simp only [privilegeColumn, hseg, charindex, hletter, hd, decode, scanBool]
  by_cases hm : c ∈ letters.data
  · have : charindexAux [c] ('=' :: letters.data) 1 ≠ 0 := by
      intro h0
      exact (hiff.1 h0) (List.mem_cons_of_mem _ hm)
    simp [this, hm]
  · have : charindexAux [c] ('=' :: letters.data) 1 = 0 := by
      apply hiff.2
      intro h
      rcases List.mem_cons.1 h with h | h
      · exact hc h
      · exact hm h
    simp [this, hm]

theorem withRow_entry (d : ResourceData) (arr : List String) (g pre letters rest : String)
    (htext : array_to_string arr "|" = pre ++ g ++ "=" ++ letters ++ "/" ++ rest)
    (hg : g ≠ "")
    (hfirst : occursBefore g.data (array_to_string arr "|").data pre.length = false)
    (hnext : occursBefore g.data ("=" ++ letters ++ "/" ++ rest).data (letters.length + 1)
      = false)
    (hslash : '/' ∉ letters.data) :
    withRow d (privilegeRow arr g) =
      { d with
        select := decide ('r' ∈ letters.data)
        insert := decide ('a' ∈ letters.data)
        update := decide ('w' ∈ letters.data)
        delete := decide ('d' ∈ letters.data)
        references := decide ('x' ∈ letters.data) } := by
  simp only [withRow, privilegeRow]
  rw [privilegeColumn_entry "r" 'r' arr g pre letters rest rfl (by decide) htext hg hfirst hnext
      hslash,
    privilegeColumn_entry "a" 'a' arr g pre letters rest rfl (by decide) htext hg hfirst hnext
      hslash,
    privilegeColumn_entry "w" 'w' arr g pre letters rest rfl (by decide) htext hg hfirst hnext
      hslash,
    privilegeColumn_entry "d" 'd' arr g pre letters rest rfl (by decide) htext hg hfirst hnext
      hslash,
    privilegeColumn_entry "x" 'x' arr g pre letters rest rfl (by decide) htext hg hfirst hnext
      hslash]

theorem scan_join_head (cat : Catalog) (schema_id group_id : Int) (g : String)
    (arr : List String) (more : List (String × List String))
    (hjoin : privilegeJoin cat schema_id group_id = (g, arr) :: more) :
    QueryRowScan none (has_schema_privilege_query cat schema_id group_id)
      = .ok (privilegeRow arr g) := by
  simp [has_schema_privilege_query, hjoin, QueryRowScan]

/-- Where Read decodes the entry of the group: when the row the privilege query
returns first is that of group `g` with an ACL string
`pre ++ g ++ "=" ++ letters ++ "/" ++ rest`, `g` is not empty, no occurrence of
`g` in the string starts before that entry or inside `=letters`, and `letters`
holds no `/`, then Read succeeds and writes all five fields from `letters`:
select iff `r` occurs in it, update iff `w`, insert iff `a`, delete iff `d`,
references iff `x`. -/
theorem read_decodes_entry (env : Env) (d : ResourceData) (w : World)
    (g pre letters rest : String) (arr : List String) (more : List (String × List String))
    (hb : env.beginErr = none)
    (hq : env.queryErr (.has_schema_privilege d.schema_id d.group_id) = none)
    (hjoin : privilegeJoin w.catalog d.schema_id d.group_id = (g, arr) :: more)
    (htext : array_to_string arr "|" = pre ++ g ++ "=" ++ letters ++ "/" ++ rest)
    (hg : g ≠ "")
    (hfirst : occursBefore g.data (array_to_string arr "|").data pre.length = false)
    (hnext : occursBefore g.data ("=" ++ letters ++ "/" ++ rest).data (letters.length + 1)
      = false)
    (hslash : '/' ∉ letters.data) :
    resourceRedshiftSchemaGroupPrivilegeRead env d w =
      ⟨.returned none,
        { d with
          select := decide ('r' ∈ letters.data)
          insert := decide ('a' ∈ letters.data)
          update := decide ('w' ∈ letters.data)
          delete := decide ('d' ∈ letters.data)
          references := decide ('x' ∈ letters.data) },
        { w with trace := w.trace ++
          [.begin, .queryRow (.has_schema_privilege d.schema_id d.group_id), .commit] }⟩ := by
  have hscan := scan_join_head w.catalog d.schema_id d.group_id g arr more hjoin
  rw [← hq] at hscan
  rw [readOp_ok env d w _ hb hscan,
    withRow_entry d arr g pre letters rest htext hg hfirst hnext hslash]

theorem intercalate_go_append (sep : String) : ∀ (l : List String) (acc b : String),
    String.intercalate.go acc sep (l ++ [b]) = String.intercalate.go acc sep l ++ sep ++ b := by
  intro l
  induction l with
  | nil => intro acc b; rfl
  | cons a l ih => intro acc b; exact ih (acc ++ sep ++ a) b

theorem array_to_string_append (old : List String) (item : String) :
    ∃ pre : String, array_to_string (old ++ [item]) "|" = pre ++ item ∧
      (old = [] → pre = "") := by
  cases old with
  | nil => exact ⟨"", by simp [array_to_string, String.intercalate, String.intercalate.go], fun _ => rfl⟩
  | cons a l =>
    refine ⟨array_to_string (a :: l) "|" ++ "|", ?_, fun h => by simp at h⟩
    simp only [array_to_string, List.cons_append, String.intercalate, intercalate_go_append]

theorem mem_appendAclItem (nsp newOid : Int) (item : String) :
    ∀ (l : List PgDefaultAcl) (acl : PgDefaultAcl), acl ∈ appendAclItem l nsp newOid item →
      acl ∈ l ∨ acl.defaclacl = [item] ∨
        ∃ a0 ∈ l, a0.defaclnamespace = nsp ∧ acl.defaclacl = a0.defaclacl ++ [item] := by
  intro l
  induction l with
  | nil =>
    intro acl h
    simp only [appendAclItem, List.mem_singleton] at h
    exact Or.inr (Or.inl (by rw [h]))
  | cons a rest ih =>
    intro acl h
    simp only [appendAclItem] at h
    split_ifs at h with hns
    · rcases List.mem_cons.1 h with h | h
      · exact Or.inr (Or.inr ⟨a, List.mem_cons_self _ _, hns, by rw [h]⟩)
      · exact Or.inl (List.mem_cons_of_mem _ h)
    · rcases List.mem_cons.1 h with h | h
      · exact Or.inl (by rw [h]; exact List.mem_cons_self _ _)
      · rcases ih acl h with h1 | h1 | ⟨a0, ha0, h2, h3⟩
        · exact Or.inl (List.mem_cons_of_mem _ h1)
        · exact Or.inr (Or.inl h1)
        · exact Or.inr (Or.inr ⟨a0, List.mem_cons_of_mem _ ha0, h2, h3⟩)

theorem mem_privilegeJoin (cat : Catalog) (schema_id group_id : Int) (r : String × List String) :
    r ∈ privilegeJoin cat schema_id group_id ↔
      ∃ pu ∈ cat.pg_group, ∃ acl ∈ cat.pg_default_acl, ∃ nsp ∈ cat.pg_namespace,
        (acl.defaclnamespace = nsp.oid
          ∧ like (array_to_string acl.defaclacl "|") ("%" ++ pu.groname ++ "=%") = true
          ∧ nsp.oid = schema_id ∧ pu.groupid = group_id)
        ∧ r = (pu.groname, acl.defaclacl) := by
  simp only [privilegeJoin, List.mem_flatMap]
  constructor
  · rintro ⟨pu, hpu, acl, hacl, nsp, hnsp, h⟩
    split_ifs at h with hc
    · exact ⟨pu, hpu, acl, hacl, nsp, hnsp, hc, by simpa using h⟩
    · simp at h
  · rintro ⟨pu, hpu, acl, hacl, nsp, hnsp, hc, h⟩
    exact ⟨pu, hpu, acl, hacl, nsp, hnsp, by rw [if_pos hc]; simp [h]⟩

theorem aclLetters_spec (d : ResourceData) :
    decide ('r' ∈ (aclLetters d).data) = d.select
      ∧ decide ('a' ∈ (aclLetters d).data) = d.insert
      ∧ decide ('w' ∈ (aclLetters d).data) = d.update
      ∧ decide ('d' ∈ (aclLetters d).data) = d.delete
      ∧ decide ('x' ∈ (aclLetters d).data) = d.references
      ∧ '/' ∉ (aclLetters d).data := by
  rcases d with ⟨id, sid, gid, a, b, c, e, f⟩
  cases a <;> cases b <;> cases c <;> cases e <;> cases f <;>
    exact ⟨rfl, rfl, rfl, rfl, rfl, by simp [aclLetters]⟩

theorem flags_withRow_entry (d0 d : ResourceData) (arr : List String) (g pre rest : String)
    (htext : array_to_string arr "|" = pre ++ g ++ "=" ++ aclLetters d ++ "/" ++ rest)
    (hg : g ≠ "")
    (hfirst : occursBefore g.data (array_to_string arr "|").data pre.length = false)
    (hnext : occursBefore g.data ("=" ++ aclLetters d ++ "/" ++ rest).data
      ((aclLetters d).length + 1) = false) :
    flags (withRow d0 (privilegeRow arr g)) = flags d := by
  obtain ⟨h1, h2, h3, h4, h5, h6⟩ := aclLetters_spec d
  rw [withRow_entry d0 arr g pre (aclLetters d) rest htext hg hfirst hnext h6]
  simp [flags, h1, h2, h3, h4, h5]

/-- After the default grant is recorded for a pair that had no row in the
privilege query, the first row of the query carries the flags asked for. -/
theorem recorded_row (cat : Catalog) (d : ResourceData) (g grantor : String) (newOid : Int)
    (row : PrivilegeRow)
    (hnone : privilegeJoin cat d.schema_id d.group_id = [])
    (huniq : ∀ pu ∈ cat.pg_group, pu.groupid = d.group_id → pu.groname = g)
    (hg : g ≠ "")
    (hold : ∀ acl ∈ cat.pg_default_acl, acl.defaclnamespace = d.schema_id →
      occursBefore g.data
        (array_to_string (acl.defaclacl ++ [aclItem g (aclLetters d) grantor]) "|").data
        ((array_to_string (acl.defaclacl ++ [aclItem g (aclLetters d) grantor]) "|").length
          - (aclItem g (aclLetters d) grantor).length) = false)
    (hnext : occursBefore g.data ("=" ++ aclLetters d ++ "/" ++ grantor).data
      ((aclLetters d).length + 1) = false)
    (hhead : (has_schema_privilege_query
      (recordDefaultGrant cat d.schema_id newOid g (aclLetters d) grantor)
      d.schema_id d.group_id).head? = some row)
    (d0 : ResourceData) :
    flags (withRow d0 row) = flags d := by
  simp only [has_schema_privilege_query, List.head?_map, Option.map_eq_some'] at hhead
  obtain ⟨r, hr, hrow⟩ := hhead
  have hmem := List.mem_of_mem_head? hr
  obtain ⟨pu, hpu, acl, hacl, nsp, hnsp, ⟨hc1, hc2, hc3, hc4⟩, hreq⟩ :=
    (mem_privilegeJoin _ _ _ _).1 hmem
  have hpu0 : pu ∈ cat.pg_group := hpu
  have hnsp0 : nsp ∈ cat.pg_namespace := hnsp
  have hname : pu.groname = g := huniq pu hpu0 hc4
  have hacl0 : acl ∈ appendAclItem cat.pg_default_acl d.schema_id newOid
      (aclItem g (aclLetters d) grantor) := hacl
  subst hrow
  rw [hreq]
  simp only [hname]
  have hitem : ∀ pre : String, pre ++ aclItem g (aclLetters d) grantor
      = pre ++ g ++ "=" ++ aclLetters d ++ "/" ++ grantor := by
    intro pre
    simp [aclItem, String.append_assoc]
  rcases mem_appendAclItem _ _ _ _ _ hacl0 with h | h | ⟨a0, ha0, hns, h⟩
  · exfalso
    have : (pu.groname, acl.defaclacl) ∈ privilegeJoin cat d.schema_id d.group_id :=
      (mem_privilegeJoin _ _ _ _).2 ⟨pu, hpu0, acl, h, nsp, hnsp0, ⟨hc1, hc2, hc3, hc4⟩, rfl⟩
    rw [hnone] at this
    simp at this
  · obtain ⟨pre, hpre, hnil⟩ := array_to_string_append [] (aclItem g (aclLetters d) grantor)
    have hp : pre = "" := hnil rfl
    rw [h]
    have htext : array_to_string [aclItem g (aclLetters d) grantor] "|"
        = pre ++ g ++ "=" ++ aclLetters d ++ "/" ++ grantor := by
      rw [← hitem]; exact hpre
    refine flags_withRow_entry d0 d _ g pre grantor htext hg ?_ hnext
    rw [hp]
    rfl
  · obtain ⟨pre, hpre, -⟩ := array_to_string_append a0.defaclacl
      (aclItem g (aclLetters d) grantor)
    rw [h]
    have htext : array_to_string (a0.defaclacl ++ [aclItem g (aclLetters d) grantor]) "|"
        = pre ++ g ++ "=" ++ aclLetters d ++ "/" ++ grantor := by
      rw [← hitem]; exact hpre
    refine flags_withRow_entry d0 d _ g pre grantor htext hg ?_ hnext
    have := hold a0 ha0 hns
    rw [hpre, String.length_append, Nat.add_sub_cancel] at this
    rw [hpre]
    exact this


/-- An instance of the decoding: group `dev` (8) on schema 5 with the ACL string
`analysts=r/admin|dev=w/admin`: Read sets update and clears the four others. -/
theorem read_decodes_entry_witness :
    resourceRedshiftSchemaGroupPrivilegeRead (demoEnv selectInsert57 "analysts")
        { identity57group8 with select := true, delete := true } ⟨twoGroupsCatalog, []⟩ =
      ⟨.returned none, { identity57group8 with update := true },
        ⟨twoGroupsCatalog, [.begin, .queryRow (.has_schema_privilege 5 8), .commit]⟩⟩ :=
  read_decodes_entry (demoEnv selectInsert57 "analysts")
    { identity57group8 with select := true, delete := true } ⟨twoGroupsCatalog, []⟩
    "dev" "analysts=r/admin|" "w" "admin" ["analysts=r/admin", "dev=w/admin"] [] rfl rfl rfl rfl
    (by decide) rfl rfl (by decide)

/-- C5, on the code: group `dev` (8) on schema 5 with the ACL string
`devops=arwdx/admin|dev=r/admin`, which holds the entry `dev=r/admin`.  The
query splits the string at the first occurrence of the name `dev`, which lies
inside `devops`: Read succeeds and sets all five flags, from the letters of the
grantee `devops`, where the entry of `dev` has the letter `r` alone. -/
theorem read_takes_other_grantee :
    (resourceRedshiftSchemaGroupPrivilegeRead (demoEnv selectOn58 "dev") selectOn58
        ⟨devopsDevCatalog, []⟩).outcome = .returned none
    ∧ flags (resourceRedshiftSchemaGroupPrivilegeRead (demoEnv selectOn58 "dev") selectOn58
        ⟨devopsDevCatalog, []⟩).data = [true, true, true, true, true]
    ∧ privilegeJoin devopsDevCatalog 5 8 = [("dev", ["devops=arwdx/admin", "dev=r/admin"])]
    ∧ array_to_string ["devops=arwdx/admin", "dev=r/admin"] "|"
      = "devops=arwdx/admin|" ++ "dev" ++ "=" ++ "r" ++ "/" ++ "admin" := by
  decide

/-! ## Create followed by Read -/

/-- Where Create followed by Read gives the flags back: on a database that
follows the catalog model (the GRANT leaves the default ACLs alone, the ALTER
DEFAULT PRIVILEGES records the letters of the flags in the grantee entry
`g=letters/grantor` of the group), starting from a catalog in which the
privilege query has no row for the pair, the group id names the one group `g`,
`g` is not empty and has no occurrence that starts before the new entry in
a default ACL of the schema or inside `=letters`, a successful Create leaves
exactly the flags asked for, and the Read that follows succeeds and leaves them
again. -/
theorem create_then_read (env : Env) (d : ResourceData) (w : World) (s g grantor : String)
    (newOid : Int)
    (hs : env.GetSchemanNameForSchemaId w.catalog d.schema_id = .ok s)
    (hn : env.GetGroupNameForGroupId w.catalog d.group_id = .ok g)
    (hgrant : env.Exec w.catalog (grant_privilege_statement (grantKeywords d) s g)
      = .ok w.catalog)
    (halter : env.Exec w.catalog (default_privileges_statement (grantKeywords d) s g)
      = .ok (recordDefaultGrant w.catalog d.schema_id newOid g (aclLetters d) grantor))
    (hnone : privilegeJoin w.catalog d.schema_id d.group_id = [])
    (huniq : ∀ pu ∈ w.catalog.pg_group, pu.groupid = d.group_id → pu.groname = g)
    (hg : g ≠ "")
    (hold : ∀ acl ∈ w.catalog.pg_default_acl, acl.defaclnamespace = d.schema_id →
      occursBefore g.data
        (array_to_string (acl.defaclacl ++ [aclItem g (aclLetters d) grantor]) "|").data
        ((array_to_string (acl.defaclacl ++ [aclItem g (aclLetters d) grantor]) "|").length
          - (aclItem g (aclLetters d) grantor).length) = false)
    (hnext : occursBefore g.data ("=" ++ aclLetters d ++ "/" ++ grantor).data
      ((aclLetters d).length + 1) = false)
    (hok : (resourceRedshiftSchemaGroupPrivilegeCreate env d w).outcome = .returned none) :
    flags (resourceRedshiftSchemaGroupPrivilegeCreate env d w).data = flags d
    ∧ (resourceRedshiftSchemaGroupPrivilegeRead env
        (resourceRedshiftSchemaGroupPrivilegeCreate env d w).data
        (resourceRedshiftSchemaGroupPrivilegeCreate env d w).world).outcome = .returned none
    ∧ flags (resourceRedshiftSchemaGroupPrivilegeRead env
        (resourceRedshiftSchemaGroupPrivilegeCreate env d w).data
        (resourceRedshiftSchemaGroupPrivilegeCreate env d w).world).data = flags d := by
  obtain ⟨hb, hgk, s1, g1, cat1, cat2, row, hs1, hn1, h1, h2, h3⟩ :=
    create_returned_none env d w hok
  rw [hs] at hs1
  rw [hn] at hn1
  cases hs1
  cases hn1
  rw [hgrant] at h1
  cases h1
  rw [halter] at h2
  cases h2
  have hrow := recorded_row w.catalog d g grantor newOid row hnone huniq hg hold hnext
    (scan_ok_head _ _ _ h3).2
  rw [create_ok env d w s g _ _ row hb hgk hs hn hgrant halter h3]
  refine ⟨hrow _, ?_, ?_⟩
  · rw [readOp_ok env _ _ row hb h3]
  · rw [readOp_ok env _ _ row hb h3]
    exact hrow _

/-- An instance of the round trip: select and insert for the group `analysts`
(7) on schema 5, whose default ACL already holds an item of the group `dev`. -/
theorem create_then_read_witness :
    flags (resourceRedshiftSchemaGroupPrivilegeCreate (demoEnv selectInsert57 "analysts")
        selectInsert57 ⟨devCatalog, []⟩).data = [true, true, false, false, false]
    ∧ (resourceRedshiftSchemaGroupPrivilegeRead (demoEnv selectInsert57 "analysts")
        (resourceRedshiftSchemaGroupPrivilegeCreate (demoEnv selectInsert57 "analysts")
          selectInsert57 ⟨devCatalog, []⟩).data
        (resourceRedshiftSchemaGroupPrivilegeCreate (demoEnv selectInsert57 "analysts")
          selectInsert57 ⟨devCatalog, []⟩).world).outcome = .returned none
    ∧ flags (resourceRedshiftSchemaGroupPrivilegeRead (demoEnv selectInsert57 "analysts")
        (resourceRedshiftSchemaGroupPrivilegeCreate (demoEnv selectInsert57 "analysts")
          selectInsert57 ⟨devCatalog, []⟩).data
        (resourceRedshiftSchemaGroupPrivilegeCreate (demoEnv selectInsert57 "analysts")
          selectInsert57 ⟨devCatalog, []⟩).world).data = [true, true, false, false, false] :=
  create_then_read (demoEnv selectInsert57 "analysts") selectInsert57 ⟨devCatalog, []⟩ "sales"
    "analysts" "admin" 100 rfl rfl rfl rfl (by decide) (by decide) (by decide) (by decide)
    (by decide) (by decide)

/-- C9, on the code, under the catalog model.  On a catalog without default
ACL, a Create of insert alone for the group named `a` succeeds and the Read
after it leaves no flag set (the entry is `a=a/admin`, the segment between the
first two occurrences of the name is `=`).  On a catalog where schema 5 has an
item for `devops` and the pair (5, `dev`) has no row, a Create of select alone
for `dev` succeeds and the Read after it leaves all five flags set. -/
theorem create_read_loses_flags :
    (privilegeJoin demoCatalog 5 9 = []
      ∧ (resourceRedshiftSchemaGroupPrivilegeCreate (demoEnv insertOn59 "a") insertOn59
          demoWorld).outcome = .returned none
      ∧ flags (resourceRedshiftSchemaGroupPrivilegeRead (demoEnv insertOn59 "a")
          (resourceRedshiftSchemaGroupPrivilegeCreate (demoEnv insertOn59 "a") insertOn59
            demoWorld).data
          (resourceRedshiftSchemaGroupPrivilegeCreate (demoEnv insertOn59 "a") insertOn59
            demoWorld).world).data = [false, false, false, false, false])
    ∧ (privilegeJoin devopsCatalog 5 8 = []
      ∧ (resourceRedshiftSchemaGroupPrivilegeCreate (demoEnv selectOn58 "dev") selectOn58
          ⟨devopsCatalog, []⟩).outcome = .returned none
      ∧ flags (resourceRedshiftSchemaGroupPrivilegeRead (demoEnv selectOn58 "dev")
          (resourceRedshiftSchemaGroupPrivilegeCreate (demoEnv selectOn58 "dev") selectOn58
            ⟨devopsCatalog, []⟩).data
          (resourceRedshiftSchemaGroupPrivilegeCreate (demoEnv selectOn58 "dev") selectOn58
            ⟨devopsCatalog, []⟩).world).data = [true, true, true, true, true]) := by
  decide

end Redshift
